import Mathlib

/-!
Delivery lifecycle engine.

A shallow embedding of `backend/routes/delivery.js`, of the role gate of
`backend/middleware/auth.js` and of the forgot-password handler of
`backend/routes/auth.js`.

* A JavaScript string is a `String`, an absent property is `none`.
* The `status` of a status update is kept as it came in the body, a string or
  an array (`StatusValue`); `req.user.role` is absent for a token signed
  without role.
* The pickup date is the text of the body; what `moment` and `new Date` read
  from it are two functions of the environment.
* The in-memory `Map` of deliveries is a list of entries in insertion order.
  The handlers mutate the object they fetched from the map, which is
  `Store.modify` on the entry with that key.
* A handler takes the store, the environment of the request (clock reads, the
  fresh uuid, the answers of the external services) and the request, and
  returns the response together with the store it leaves behind.
* `Response.thrown` is an exception that leaves the handler: `asyncHandler`
  hands it to the error middleware, which is not part of these files.
* Amounts are rationals (exact arithmetic), timestamps are milliseconds.
-/

namespace DeliveryCo

/-! ## Data model -/

/-- The `location` object a driver sends with a status update. -/
structure Location where
  lat : Int
  lng : Int
deriving DecidableEq, Repr

/-- A `{ text, value }` pair as the distance matrix service returns it. -/
structure Measure where
  text : String
  value : Nat
deriving DecidableEq, Repr

/-- The answer of `mapsService.getDistanceMatrix` (distance in metres, duration in seconds). -/
structure DistanceMatrix where
  distance : Measure
  duration : Measure
deriving DecidableEq, Repr

/-- A `status` value as the handlers hold it. `PATCH /:id/status` stores the
`status` property of the body as it came (lines 209, 222): a string, or an
array. Of an array the text forms of the elements are kept, which is what the
validator reads; whatever its elements, an array is `===` to no string. -/
inductive StatusValue where
  | text (s : String)
  | array (elems : List String)
deriving DecidableEq, Repr

/-- The `trackingData` object of a delivery (delivery.js, lines 99-104). -/
structure TrackingData where
  distance : Measure
  duration : Measure
  pickupCoordinates : Option Location
  deliveryCoordinates : Option Location
deriving DecidableEq, Repr

/-- The delivery object built at lines 81-105 of delivery.js, with the two
properties that later handlers add (`driverId`, `actualDeliveryDate`). -/
structure Delivery where
  id : String
  customerId : String
  driverId : Option String
  pickupAddress : String
  deliveryAddress : String
  customerName : String
  customerPhone : String
  customerEmail : String
  description : Option String
  weight : ℚ
  items : List String
  type : String
  status : StatusValue
  price : ℚ
  /-- `new Date(pickupDate)`, `none` for an invalid date -/
  pickupDate : Option Int
  /-- the date of the moment of lines 73-77, `none` for an invalid date -/
  estimatedDeliveryDate : Option Int
  actualDeliveryDate : Option Nat
  createdAt : Nat
  updatedAt : Nat
  trackingData : TrackingData
deriving DecidableEq, Repr

/-- The `req.user` object that `authMiddleware` builds from the token
(auth.js, lines 16-20). The tokens of `register` and `login` carry a role; the
reset token of `forgot-password` (routes/auth.js, lines 304-308) is signed with
the same secret and carries none, so `role` is `undefined`, here `none`. -/
structure User where
  userId : String
  email : String
  role : Option String
deriving DecidableEq, Repr

/-! ## The store: `const deliveries = new Map()` -/

/-- The entries of the `deliveries` map, in insertion order. -/
structure Store where
  entries : List (String × Delivery)
deriving DecidableEq, Repr

/-- The first entry with key `id` in a list of entries. -/
def lookupEntry : List (String × Delivery) → String → Option Delivery
  | [], _ => none
  | (k, d) :: rest, id => if k = id then some d else lookupEntry rest id

/-- Apply `f` to the value of the first entry with key `id`. -/
def modifyEntry : List (String × Delivery) → String → (Delivery → Delivery) → List (String × Delivery)
  | [], _, _ => []
  | (k, d) :: rest, id, f =>
    if k = id then (k, f d) :: rest else (k, d) :: modifyEntry rest id f

/-- Replace the value under key `id`, or append a new entry when the key is absent. -/
def setEntry : List (String × Delivery) → String → Delivery → List (String × Delivery)
  | [], id, d => [(id, d)]
  | (k, e) :: rest, id, d =>
    if k = id then (k, d) :: rest else (k, e) :: setEntry rest id d

/-- The empty map the module starts with. -/
def Store.empty : Store := ⟨[]⟩

/-- The call `deliveries.get(id)`. -/
def Store.get (s : Store) (id : String) : Option Delivery := lookupEntry s.entries id

/-- The call `deliveries.set(id, d)`. -/
def Store.set (s : Store) (id : String) (d : Delivery) : Store := ⟨setEntry s.entries id d⟩

/-- In-place mutation of the object stored under `id`. -/
def Store.modify (s : Store) (id : String) (f : Delivery → Delivery) : Store :=
  ⟨modifyEntry s.entries id f⟩

/-- The call `Array.from(deliveries.values())`. -/
def Store.values (s : Store) : List Delivery := s.entries.map Prod.snd

/-! ## Requests, environment, responses -/

/-- What a request meets outside the process: clock reads, the uuid generator and
the external services. -/
structure Env where
  /-- first `new Date()` of the handler -/
  now : Nat
  /-- second `new Date()` of the handler -/
  now2 : Nat
  /-- result of `uuidv4()` -/
  uuid : String
  /-- answer of the distance matrix call, `none` when it throws -/
  route : Option DistanceMatrix
  /-- whether the Firestore call of the handler returns (otherwise it throws) -/
  persistOk : Bool
  /-- whether `messagingService.sendToTopic` returns (otherwise it throws) -/
  notifyOk : Bool
  /-- the library check `isEmail` of express-validator -/
  isEmail : String → Bool
  /-- the library check `isISO8601` of express-validator on the pickup text -/
  isISO8601 : String → Bool
  /-- the instant `moment(text)` denotes on this server, `none` for an invalid moment -/
  momentParse : String → Option Int
  /-- the instant `new Date(text)` denotes, `none` for an invalid date -/
  dateParse : String → Option Int

/-- The `location` property of a status update body. -/
inductive LocationField where
  | absent
  | notObject
  | object (l : Location)
deriving DecidableEq, Repr

/-- Body of `PATCH /:id/status`. A missing `status` is the empty text; a
number, a boolean or `null` is the text the validator reads it as. -/
structure StatusBody where
  status : StatusValue
  location : LocationField
deriving DecidableEq, Repr

/-- Body of `PATCH /:id/assign`. A missing `driverId` is the empty string. -/
structure AssignBody where
  driverId : String
deriving DecidableEq, Repr

/-- Body of `POST /`. A missing string property is the empty string;
`pickupDate` is the text as it came. -/
structure CreateBody where
  pickupAddress : String
  deliveryAddress : String
  customerName : String
  customerPhone : String
  customerEmail : String
  description : Option String
  weight : ℚ
  items : List String
  type : String
  pickupDate : String
deriving DecidableEq, Repr

/-- Query of `GET /`: an absent parameter is `none`. -/
structure ListQuery where
  status : Option String
  type : Option String
  page : Option Int
  limit : Option Int
deriving DecidableEq, Repr

/-- The `pagination` object of the list response; `pages` is `none` when the
division by `limit` has no finite value. -/
structure Pagination where
  page : Int
  limit : Int
  total : Nat
  pages : Option Int
deriving DecidableEq, Repr

/-- The `stats` object of `GET /stats/overview`. -/
structure Stats where
  total : Nat
  pending : Nat
  confirmed : Nat
  pickedUp : Nat
  inTransit : Nat
  delivered : Nat
  cancelled : Nat
  totalRevenue : ℚ
  averageDeliveryTime : Nat
deriving DecidableEq, Repr

/-- JSON bodies the handlers send. -/
inductive Body where
  /-- `{ errors: [...] }`, the messages of the failed validators in order -/
  | errors (msgs : List String)
  /-- `{ error }` -/
  | error (msg : String)
  /-- `{ delivery }` -/
  | delivery (d : Delivery)
  /-- `{ message, delivery }` -/
  | message (msg : String) (d : Delivery)
  /-- `{ deliveries, pagination }` -/
  | list (ds : List Delivery) (p : Pagination)
  /-- `{ stats }` -/
  | stats (st : Stats)
deriving DecidableEq, Repr

/-- What a handler does with the response object. -/
inductive Response where
  | json (code : Nat) (body : Body)
  | thrown
deriving DecidableEq, Repr

/-! ## middleware/auth.js -/

/-- The middleware `requireRole(roles)`: `Except.error` is the response it
sends itself, `Except.ok` is the call of `next()`. -/
def requireRole (roles : List String) (user : Option User) : Except Response User :=
  match user with
  | none => .error (.json 401 (.error "Authentication required"))
  | some u =>
    if u.role ∈ roles.map some then .ok u
    else .error (.json 403 (.error "Insufficient permissions"))

/-- Line 52 of auth.js. -/
def requireAdmin : Option User → Except Response User := requireRole ["admin"]

/-- Line 58 of auth.js. -/
def requireCustomer : Option User → Except Response User := requireRole ["customer"]

/-- Line 61 of auth.js. -/
def requireDriverOrAdmin : Option User → Except Response User := requireRole ["driver", "admin"]

/-- A `sendToTopic` call inside `try { ... } catch (notificationError) { console.error(...) }`:
whether it throws or not, control continues after the block. -/
def notifyCaught {α : Type} (ok : Bool) (k : α) : α :=
  match (if ok then Except.ok () else Except.error "Notification error" : Except String Unit) with
  | .ok _ => k
  | .error _ => k

/-- JavaScript truthiness of an optional string property. -/
def truthy : Option String → Bool
  | none => false
  | some v => v ≠ ""

/-! ## routes/delivery.js: pricing and estimated delivery -/

/-- The value `Math.round(x)`: the integer nearest to `x`, a tie going up. -/
def mathRound (x : ℚ) : Int := ⌊x + 1 / 2⌋

/-- Lines 54-70: the price before rounding. The `switch` has no default
branch, so an unlisted type leaves the base price as it is. -/
def rawPrice (distanceValue : Nat) (type : String) (weight : ℚ) : ℚ :=
  let basePrice : ℚ := (distanceValue : ℚ) / 1000 * 2
  let price : ℚ :=
    if type = "express" then basePrice * (3 / 2)
    else if type = "standard" then basePrice * 1
    else if type = "economy" then basePrice * (4 / 5)
    else basePrice
  price + weight * (1 / 2)

/-- Line 94: `Math.round(price * 100) / 100`. -/
def roundedPrice (price : ℚ) : ℚ := (mathRound (price * 100) : ℚ) / 100

/-- The integer part of a time value, as `Date.prototype.setTime` keeps it. -/
def timeClip (t : ℚ) : Int := if 0 ≤ t then ⌊t⌋ else ⌈t⌉

/-- The call `m.add(h, 'hours')` of moment on the instant `t` (milliseconds). -/
def addHours (t : Int) (h : ℚ) : Int := timeClip ((t : ℚ) + h * 3600000)

/-- Lines 73-77, for a pickup text that moment reads as the instant `pickup`:
that instant plus the travel time in hours plus two hours. -/
def estimatedDelivery (pickup : Int) (durationValue : Nat) : Int :=
  addHours (addHours pickup ((durationValue : ℚ) / 3600)) 2

/-! ## routes/delivery.js: `POST /` -/

/-- The validation chain of `POST /` (lines 17-25): the messages of the
validators that fail, in order. -/
def validateCreate (env : Env) (b : CreateBody) : List String :=
  (if b.pickupAddress ≠ "" then [] else ["Pickup address is required"]) ++
  (if b.deliveryAddress ≠ "" then [] else ["Delivery address is required"]) ++
  (if b.customerName ≠ "" then [] else ["Customer name is required"]) ++
  (if b.customerPhone ≠ "" then [] else ["Customer phone is required"]) ++
  (if env.isEmail b.customerEmail then [] else ["Valid customer email is required"]) ++
  (if (1 / 10 : ℚ) ≤ b.weight then [] else ["Weight must be greater than 0"]) ++
  (if 1 ≤ b.items.length then [] else ["At least one item is required"]) ++
  (if b.type ∈ ["express", "standard", "economy"] then [] else ["Valid delivery type is required"]) ++
  (if env.isISO8601 b.pickupDate then [] else ["Valid pickup date is required"])

/-- The object literal of lines 81-105. The pickup text is read twice: by
`moment` for the estimate (line 73; an invalid moment stays invalid under
`add`) and by `new Date` for `pickupDate` (line 95). -/
def newDelivery (env : Env) (u : User) (b : CreateBody) (dm : DistanceMatrix) : Delivery :=
  { id := env.uuid
    customerId := u.userId
    driverId := none
    pickupAddress := b.pickupAddress
    deliveryAddress := b.deliveryAddress
    customerName := b.customerName
    customerPhone := b.customerPhone
    customerEmail := b.customerEmail
    description := b.description
    weight := b.weight
    items := b.items
    type := b.type
    status := .text "pending"
    price := roundedPrice (rawPrice dm.distance.value b.type b.weight)
    pickupDate := env.dateParse b.pickupDate
    estimatedDeliveryDate :=
      (env.momentParse b.pickupDate).map (fun m => estimatedDelivery m dm.duration.value)
    actualDeliveryDate := none
    createdAt := env.now
    updatedAt := env.now2
    trackingData :=
      { distance := dm.distance
        duration := dm.duration
        pickupCoordinates := none
        deliveryCoordinates := none } }

/-- The handler of `POST /` (lines 16-134). -/
def createDelivery (s : Store) (env : Env) (user : Option User) (b : CreateBody) : Response × Store :=
  match requireCustomer user with
  | .error r => (r, s)
  | .ok u =>
    let errors := validateCreate env b
    if errors ≠ [] then (.json 400 (.errors errors), s)
    else
      -- try {
      match env.route with
      | none => (.json 500 (.error "Failed to create delivery"), s)
      | some dm =>
        let delivery := newDelivery env u b dm
        let s' := s.set env.uuid delivery
        if env.persistOk then
          notifyCaught env.notifyOk (.json 201 (.message "Delivery created successfully" delivery), s')
        else
          -- } catch (error) {
          (.json 500 (.error "Failed to create delivery"), s')

/-! ## routes/delivery.js: `PATCH /:id/status` -/

/-- The five values of line 198. -/
def settableStatuses : List String :=
  ["confirmed", "pickedUp", "inTransit", "delivered", "cancelled"]

/-- The check `isIn([...])` of line 198 as express-validator runs it: on a
string as it is, on an array on each element in turn, one error for each
element that fails (so an empty array has none). -/
def statusErrors : StatusValue → List String
  | .text v => if v ∈ settableStatuses then [] else ["Valid status is required"]
  | .array elems =>
    (elems.filter (fun e => e ∉ settableStatuses)).map (fun _ => "Valid status is required")

/-- Whether a `status` value passes the check of line 198. -/
def statusIsIn : StatusValue → Bool
  | .text v => v ∈ settableStatuses
  | .array elems => elems.all (fun e => e ∈ settableStatuses)

/-- The validation chain of `PATCH /:id/status` (lines 198-200). -/
def validateStatus (b : StatusBody) : List String :=
  statusErrors b.status ++
  (if b.location = .notObject then ["Location must be an object"] else [])

/-- Lines 221-233: the assignments to the fetched delivery. -/
def applyStatus (env : Env) (b : StatusBody) (d : Delivery) : Delivery :=
  let d1 := { d with status := b.status, updatedAt := env.now }
  match b.location with
  | .object location =>
    if b.status = .text "pickedUp" then
      { d1 with trackingData := { d1.trackingData with pickupCoordinates := some location } }
    else if b.status = .text "delivered" then
      { d1 with
        trackingData := { d1.trackingData with deliveryCoordinates := some location }
        actualDeliveryDate := some env.now2 }
    else d1
  | _ => d1

/-- The handler of `PATCH /:id/status` (lines 197-269). -/
def updateStatus (s : Store) (env : Env) (user : Option User) (id : String) (b : StatusBody) :
    Response × Store :=
  match requireDriverOrAdmin user with
  | .error r => (r, s)
  | .ok u =>
    let errors := validateStatus b
    if errors ≠ [] then (.json 400 (.errors errors), s)
    else
      match s.get id with
      | none => (.json 404 (.error "Delivery not found"), s)
      | some delivery =>
        if u.role = some "driver" ∧ delivery.driverId ≠ some u.userId then
          (.json 403 (.error "Access denied"), s)
        else
          let s' := s.modify id (applyStatus env b)
          if env.persistOk then
            notifyCaught env.notifyOk
              (.json 200 (.message "Delivery status updated successfully" (applyStatus env b delivery)), s')
          else (.thrown, s')

/-! ## routes/delivery.js: `PATCH /:id/assign` -/

/-- The validation chain of `PATCH /:id/assign` (line 273). -/
def validateAssign (b : AssignBody) : List String :=
  if b.driverId ≠ "" then [] else ["Driver ID is required"]

/-- Lines 289-292: the assignments to the fetched delivery. -/
def applyAssign (env : Env) (b : AssignBody) (d : Delivery) : Delivery :=
  { d with driverId := some b.driverId, status := .text "confirmed", updatedAt := env.now }

/-- The handler of `PATCH /:id/assign` (lines 272-318). -/
def assignDriver (s : Store) (env : Env) (user : Option User) (id : String) (b : AssignBody) :
    Response × Store :=
  match requireAdmin user with
  | .error r => (r, s)
  | .ok _ =>
    let errors := validateAssign b
    if errors ≠ [] then (.json 400 (.errors errors), s)
    else
      match s.get id with
      | none => (.json 404 (.error "Delivery not found"), s)
      | some delivery =>
        let s' := s.modify id (applyAssign env b)
        if env.persistOk then
          notifyCaught env.notifyOk
            (.json 200 (.message "Driver assigned successfully" (applyAssign env b delivery)), s')
        else (.thrown, s')

/-! ## routes/delivery.js: `PATCH /:id/cancel` -/

/-- Lines 339-341: the assignments to the fetched delivery. -/
def applyCancel (env : Env) (d : Delivery) : Delivery :=
  { d with status := .text "cancelled", updatedAt := env.now }

/-- The handler of `PATCH /:id/cancel` (lines 321-368). -/
def cancelDelivery (s : Store) (env : Env) (user : Option User) (id : String) : Response × Store :=
  match requireCustomer user with
  | .error r => (r, s)
  | .ok u =>
    match s.get id with
    | none => (.json 404 (.error "Delivery not found"), s)
    | some delivery =>
      if delivery.customerId ≠ u.userId then (.json 403 (.error "Access denied"), s)
      else if delivery.status ∈ [.text "pickedUp", .text "inTransit", .text "delivered"] then
        (.json 400 (.error "Delivery cannot be cancelled at this stage"), s)
      else
        let s' := s.modify id (applyCancel env)
        if env.persistOk then
          let done : Response × Store :=
            (.json 200 (.message "Delivery cancelled successfully" (applyCancel env delivery)), s')
          if truthy delivery.driverId then notifyCaught env.notifyOk done else done
        else (.thrown, s')

/-! ## routes/delivery.js: `GET /`, `GET /:id`, `GET /stats/overview` -/

/-- The call `xs.slice(start, stop)` of JavaScript arrays, negative indices
counting from the end. -/
def jsSlice {α : Type} (xs : List α) (start stop : Int) : List α :=
  let len : Int := xs.length
  let k : Int := if start < 0 then max (len + start) 0 else min start len
  let fin : Int := if stop < 0 then max (len + stop) 0 else min stop len
  (xs.drop k.toNat).take (fin - k).toNat

/-- Lines 143-148: the filter by role. -/
def roleFilter (u : User) (ds : List Delivery) : List Delivery :=
  if u.role = some "customer" then ds.filter (fun d => d.customerId = u.userId)
  else if u.role = some "driver" then ds.filter (fun d => d.driverId = some u.userId)
  else ds

/-- Lines 151-153: the status filter, applied when the parameter is truthy. -/
def statusFilter (status : Option String) (ds : List Delivery) : List Delivery :=
  match status with
  | some v => if truthy (some v) then ds.filter (fun d => d.status = .text v) else ds
  | none => ds

/-- Lines 154-156: the type filter, applied when the parameter is truthy. -/
def typeFilter (type : Option String) (ds : List Delivery) : List Delivery :=
  match type with
  | some v => if truthy (some v) then ds.filter (fun d => d.type = v) else ds
  | none => ds

/-- Line 159: the (stable) sort, newest first. -/
def sortNewestFirst (ds : List Delivery) : List Delivery :=
  ds.insertionSort (fun a b => b.createdAt ≤ a.createdAt)

/-- Lines 141-159: the list of the requester before pagination. -/
def userDeliveries (s : Store) (u : User) (q : ListQuery) : List Delivery :=
  sortNewestFirst (typeFilter q.type (statusFilter q.status (roleFilter u s.values)))

/-- Line 171: `Math.ceil(total / limit)`. -/
def pageCount (total : Nat) (limit : Int) : Option Int :=
  if limit = 0 then none else some ⌈(total : ℚ) / (limit : ℚ)⌉

/-- The handler of `GET /` (lines 137-174). Without `req.user` the read of
`req.user.role` throws. -/
def listDeliveries (s : Store) (user : Option User) (q : ListQuery) : Response × Store :=
  let page : Int := q.page.getD 1
  let limit : Int := q.limit.getD 10
  let skip : Int := (page - 1) * limit
  match user with
  | none => (.thrown, s)
  | some u =>
    let all := userDeliveries s u q
    let total := all.length
    let paginatedDeliveries := jsSlice all skip (skip + limit)
    (.json 200 (.list paginatedDeliveries
      { page := page, limit := limit, total := total, pages := pageCount total limit }), s)

/-- The handler of `GET /:id` (lines 177-194). -/
def getDelivery (s : Store) (user : Option User) (id : String) : Response × Store :=
  match s.get id with
  | none => (.json 404 (.error "Delivery not found"), s)
  | some delivery =>
    match user with
    | none => (.thrown, s)
    | some u =>
      if u.role = some "customer" ∧ delivery.customerId ≠ u.userId then
        (.json 403 (.error "Access denied"), s)
      else if u.role = some "driver" ∧ delivery.driverId ≠ some u.userId then
        (.json 403 (.error "Access denied"), s)
      else (.json 200 (.delivery delivery), s)

/-- The number of deliveries with the given status. -/
def countStatus (ds : List Delivery) (status : String) : Nat :=
  (ds.filter (fun d => d.status = .text status)).length

/-- Lines 382-384: the revenue of the delivered deliveries. -/
def totalRevenue (ds : List Delivery) : ℚ :=
  (ds.filter (fun d => d.status = .text "delivered")).foldl (fun sum d => sum + d.price) 0

/-- Lines 372-386: the `stats` object. -/
def overview (allDeliveries : List Delivery) : Stats :=
  { total := allDeliveries.length
    pending := countStatus allDeliveries "pending"
    confirmed := countStatus allDeliveries "confirmed"
    pickedUp := countStatus allDeliveries "pickedUp"
    inTransit := countStatus allDeliveries "inTransit"
    delivered := countStatus allDeliveries "delivered"
    cancelled := countStatus allDeliveries "cancelled"
    totalRevenue := totalRevenue allDeliveries
    averageDeliveryTime := 0 }

/-- The handler of `GET /stats/overview` (lines 371-389). -/
def statsOverview (s : Store) (user : Option User) : Response × Store :=
  match requireAdmin user with
  | .error r => (r, s)
  | .ok _ => (.json 200 (.stats (overview s.values)), s)

/-! ## Requests as a transition system -/

/-- The requests the router serves. -/
inductive Op where
  | create (b : CreateBody)
  | list (q : ListQuery)
  | get (id : String)
  | updateStatus (id : String) (b : StatusBody)
  | assignDriver (id : String) (b : AssignBody)
  | cancel (id : String)
  | stats

/-- One request served on store `s`. -/
def step (s : Store) (env : Env) (user : Option User) : Op → Response × Store
  | .create b => createDelivery s env user b
  | .list q => listDeliveries s user q
  | .get id => getDelivery s user id
  | .updateStatus id b => updateStatus s env user id b
  | .assignDriver id b => assignDriver s env user id b
  | .cancel id => cancelDelivery s env user id
  | .stats => statsOverview s user

/-- The stores the process can be in: the empty map, and what any request
leaves behind. -/
inductive Reachable : Store → Prop where
  | init : Reachable Store.empty
  | next {s : Store} (env : Env) (user : Option User) (op : Op) :
      Reachable s → Reachable (step s env user op).2

/-- The status of the delivery stored under `id`, if any. -/
def Store.statusOf (s : Store) (id : String) : Option StatusValue :=
  (s.get id).map (·.status)

/-! ## The pricing rule as the specification words it -/

/-- The tier multiplier of the specification: express 1.5, standard 1.0,
economy 0.8; no other tier has one. -/
def tierMultiplier (tier : String) : Option ℚ :=
  if tier = "express" then some (3 / 2)
  else if tier = "standard" then some 1
  else if tier = "economy" then some (4 / 5)
  else none

/-- The price of the specification before rounding: 2.0 per kilometre, times
the tier multiplier, plus 0.5 per kilogram. -/
def specPrice (distanceMeters : ℚ) (weightKg : ℚ) (m : ℚ) : ℚ :=
  distanceMeters / 1000 * 2 * m + (1 / 2) * weightKg

/-- Rounding to two decimal places, a tie going away from zero. -/
def round2 (x : ℚ) : ℚ :=
  if 0 ≤ x then (⌊x * 100 + 1 / 2⌋ : ℚ) / 100 else -((⌊-x * 100 + 1 / 2⌋ : ℚ) / 100)

/-! ## Visibility as the specification words it -/

/-- The two answers the role gate gives itself. -/
def gateAnswers : List Response :=
  [.json 401 (.error "Authentication required"), .json 403 (.error "Insufficient permissions")]

/-- A record is visible to its owning customer, to the driver assigned to it,
and to every admin. -/
def visibleTo (u : User) (d : Delivery) : Bool :=
  (u.role = some "customer" && d.customerId = u.userId) ||
  (u.role = some "driver" && d.driverId = some u.userId) ||
  u.role = some "admin"

/-- A value matches a filter that is not supplied (absent or empty), and
matches a supplied filter when it is that string. -/
def matchesFilter (filter : Option String) (v : StatusValue) : Bool :=
  match filter with
  | none => true
  | some x => if x = "" then true else v = .text x

/-! ## A concrete run, used to evaluate the handlers -/

/-- A server whose clock is at UTC+05:30. The three pickup texts it knows all
pass the non-strict `isISO8601`: a date-time with zone, which `moment` and
`new Date` read as the same instant; a date alone, which `moment` reads as
local midnight and `new Date` as midnight UTC; the thirtieth of February,
which `moment` does not read and `new Date` reads as the first of March. -/
def sampleEnv : Env :=
  { now := 1000
    now2 := 1001
    uuid := "d-1"
    route := some { distance := ⟨"10 km", 10000⟩, duration := ⟨"20 mins", 1200⟩ }
    persistOk := true
    notifyOk := true
    isEmail := fun e => '@' ∈ e.data
    isISO8601 := fun t => t ∈ ["1970-01-02T00:00:00.000Z", "1970-01-02", "2024-02-30"]
    momentParse := fun t =>
      if t = "1970-01-02T00:00:00.000Z" then some 86400000
      else if t = "1970-01-02" then some 66600000
      else none
    dateParse := fun t =>
      if t = "1970-01-02T00:00:00.000Z" then some 86400000
      else if t = "1970-01-02" then some 86400000
      else if t = "2024-02-30" then some 1709251200000
      else none }

def sampleCustomer : User := ⟨"u-1", "ann@example.org", some "customer"⟩

def otherCustomer : User := ⟨"u-2", "bob@example.org", some "customer"⟩

def sampleDriver : User := ⟨"drv-1", "dan@example.org", some "driver"⟩

def sampleAdmin : User := ⟨"adm-1", "eve@example.org", some "admin"⟩

/-- The user of a reset token of `POST /forgot-password`: no role. -/
def resetTokenUser : User := ⟨"u-2", "bob@example.org", none⟩

def sampleBody : CreateBody :=
  { pickupAddress := "1 Main St"
    deliveryAddress := "9 High St"
    customerName := "Ann"
    customerPhone := "555-0100"
    customerEmail := "ann@example.org"
    description := none
    weight := 4
    items := ["book"]
    type := "standard"
    pickupDate := "1970-01-02T00:00:00.000Z" }

/-- The body `sampleBody` with a pickup date without time and zone. -/
def dateOnlyBody : CreateBody := { sampleBody with pickupDate := "1970-01-02" }

/-- The body `sampleBody` with the thirtieth of February as pickup date. -/
def invalidDateBody : CreateBody := { sampleBody with pickupDate := "2024-02-30" }

/-- The delivery that `POST /` builds from `sampleBody` in `sampleEnv`. -/
def sampleDelivery : Delivery :=
  { id := "d-1"
    customerId := "u-1"
    driverId := none
    pickupAddress := "1 Main St"
    deliveryAddress := "9 High St"
    customerName := "Ann"
    customerPhone := "555-0100"
    customerEmail := "ann@example.org"
    description := none
    weight := 4
    items := ["book"]
    type := "standard"
    status := .text "pending"
    price := 22
    pickupDate := some 86400000
    estimatedDeliveryDate := some 94800000
    actualDeliveryDate := none
    createdAt := 1000
    updatedAt := 1001
    trackingData :=
      { distance := ⟨"10 km", 10000⟩
        duration := ⟨"20 mins", 1200⟩
        pickupCoordinates := none
        deliveryCoordinates := none } }

/-- The store after the customer has created the delivery `d-1`. -/
def storeCreated : Store := ⟨[("d-1", sampleDelivery)]⟩

/-- The store after an admin has then set `d-1` to `delivered`, sending no location. -/
def storeDelivered : Store :=
  ⟨[("d-1", { sampleDelivery with status := .text "delivered", updatedAt := 1000 })]⟩

/-- The store after an admin has sent `{ status: ['delivered'] }` for `d-1`. -/
def storeArray : Store :=
  ⟨[("d-1", { sampleDelivery with status := .array ["delivered"], updatedAt := 1000 })]⟩

/-- The store after an admin has assigned `drv-1` to `d-1`. -/
def storeAssigned : Store :=
  ⟨[("d-1", { sampleDelivery with
      driverId := some "drv-1", status := .text "confirmed", updatedAt := 1000 })]⟩

/-- The store after an admin has set `d-1` to `delivered` with a location. -/
def storeDeliveredAt : Store :=
  ⟨[("d-1", { sampleDelivery with
      status := .text "delivered"
      updatedAt := 1000
      actualDeliveryDate := some 1001
      trackingData := { sampleDelivery.trackingData with deliveryCoordinates := some ⟨12, 77⟩ } })]⟩

/-- The status code of a response, `none` for an exception. -/
def Response.code : Response → Option Nat
  | .json code _ => some code
  | .thrown => none

/-! ## Reading answers, serving requests in sequence -/

/-- The `deliveries` array of a list answer; any other answer has none. -/
def Response.items : Response → List Delivery
  | .json _ (.list ds _) => ds
  | _ => []

/-- Pages 1 to `n` of `GET /`, one request for each page, one after the other. -/
def pagesUpTo (s : Store) (u : User) (q : ListQuery) : Nat → List Delivery
  | 0 => []
  | n + 1 =>
    pagesUpTo s u q n ++
      (listDeliveries s (some u) { q with page := some ((n : Int) + 1) }).1.items

/-- Whether the request is a `POST /`. -/
def Op.isCreate : Op → Bool
  | .create _ => true
  | _ => false

/-- A request together with what it meets outside the process. -/
structure Request where
  env : Env
  user : Option User
  op : Op

/-- The store after the requests have been served in order. -/
def runOps (s : Store) : List Request → Store
  | [] => s
  | r :: rest => runOps (step s r.env r.user r.op).2 rest

/-- The environment of `sampleEnv` with a Firestore call that throws. -/
def persistFailsEnv : Env := { sampleEnv with persistOk := false }

/-- The environment of `sampleEnv` with a distance matrix call that throws. -/
def routeFailsEnv : Env := { sampleEnv with route := none }

/-! ## routes/auth.js: `POST /forgot-password` -/

/-- The user object of lines 42-51 of auth.js. -/
structure Account where
  id : String
  name : String
  email : String
  phone : String
  password : String
  role : String
  createdAt : Nat
  isActive : Bool
deriving DecidableEq, Repr

/-- The entries of `const users = new Map()`, keyed by email. -/
structure UserStore where
  entries : List (String × Account)
deriving DecidableEq, Repr

/-- The call `users.get(email)`. -/
def UserStore.get (us : UserStore) (email : String) : Option Account :=
  (us.entries.find? (fun e => e.1 = email)).map Prod.snd

/-- What `POST /forgot-password` meets outside the file: the checks of
express-validator and the token signer. -/
structure AuthEnv where
  /-- the library check `isEmail` -/
  isEmail : String → Bool
  /-- the library sanitizer `normalizeEmail` -/
  normalizeEmail : String → String
  /-- the call `jwt.sign` on a user id and an email with the secret of the
  process and a lifetime of one hour, `none` when it throws -/
  sign : String → String → Option String

/-- JSON bodies of `POST /forgot-password`. -/
inductive AuthBody where
  /-- `{ errors: [...] }` -/
  | errors (msgs : List String)
  /-- `{ error }` -/
  | error (msg : String)
  /-- `{ message }` -/
  | message (msg : String)
  /-- `{ message, resetToken }` -/
  | messageToken (msg : String) (resetToken : String)
deriving DecidableEq, Repr

/-- The answer of `POST /forgot-password`: status code and body. -/
structure AuthResponse where
  code : Nat
  body : AuthBody
deriving DecidableEq, Repr

/-- The handler of `POST /forgot-password` (lines 284-320). It does not write
to the user map. -/
def forgotPassword (us : UserStore) (env : AuthEnv) (email : String) : AuthResponse :=
  if env.isEmail email then
    match us.get (env.normalizeEmail email) with
    | none => ⟨200, .message "If the email exists, a reset link has been sent"⟩
    | some user =>
      match env.sign user.id user.email with
      | some resetToken => ⟨200, .messageToken "Password reset link sent to email" resetToken⟩
      | none => ⟨500, .error "Failed to process request"⟩
  else ⟨400, .errors ["Valid email is required"]⟩

/-- A user map with one registered user. -/
def sampleUsers : UserStore :=
  ⟨[("ann@example.org",
      { id := "u-1", name := "Ann", email := "ann@example.org", phone := "555-0100",
        password := "$2a$12$hash", role := "customer", createdAt := 500, isActive := true })]⟩

/-- An environment of `POST /forgot-password` whose signer returns. -/
def sampleAuthEnv : AuthEnv :=
  { isEmail := fun e => '@' ∈ e.data
    normalizeEmail := fun e => e
    sign := fun userId email => some ("jwt." ++ userId ++ "." ++ email) }

/-! ## Lemmas on the store -/

theorem lookupEntry_modifyEntry (l : List (String × Delivery)) (id j : String)
    (f : Delivery → Delivery) :
    lookupEntry (modifyEntry l id f) j
      = if j = id then (lookupEntry l id).map f else lookupEntry l j := by
  induction l with
  | nil => simp [lookupEntry, modifyEntry]
  | cons e rest ih =>
    obtain ⟨k, d⟩ := e
    by_cases hk : k = id
    · subst hk
      by_cases hj : j = k
      · subst hj; simp [lookupEntry, modifyEntry]
      · have hj' : ¬ k = j := fun h => hj h.symm
        simp [lookupEntry, modifyEntry, hj, hj']
    · by_cases hj : k = j
      · subst hj; simp [lookupEntry, modifyEntry, hk]
      · simp [lookupEntry, modifyEntry, hk, hj, ih]

theorem Store.get_modify (s : Store) (id j : String) (f : Delivery → Delivery) :
    (s.modify id f).get j = if j = id then (s.get id).map f else s.get j :=
  lookupEntry_modifyEntry s.entries id j f

theorem Store.get_modify_self (s : Store) (id : String) (f : Delivery → Delivery) :
    (s.modify id f).get id = (s.get id).map f := by
  simp [Store.get_modify]

theorem Store.get_modify_of_ne (s : Store) {id j : String} (f : Delivery → Delivery)
    (h : j ≠ id) : (s.modify id f).get j = s.get j := by
  simp [Store.get_modify, h]

theorem lookupEntry_setEntry (l : List (String × Delivery)) (id j : String) (d : Delivery) :
    lookupEntry (setEntry l id d) j = if j = id then some d else lookupEntry l j := by
  induction l with
  | nil =>
    by_cases hj : id = j
    · subst hj; simp [lookupEntry, setEntry]
    · have hj' : ¬ j = id := fun h => hj h.symm
      simp [lookupEntry, setEntry, hj, hj']
  | cons e rest ih =>
    obtain ⟨k, e⟩ := e
    by_cases hk : k = id
    · subst hk
      by_cases hj : j = k
      · subst hj; simp [lookupEntry, setEntry]
      · have hj' : ¬ k = j := fun h => hj h.symm
        simp [lookupEntry, setEntry, hj, hj']
    · by_cases hj : k = j
      · subst hj; simp [lookupEntry, setEntry, hk]
      · simp [lookupEntry, setEntry, hk, hj, ih]

theorem Store.get_set (s : Store) (id j : String) (d : Delivery) :
    (s.set id d).get j = if j = id then some d else s.get j :=
  lookupEntry_setEntry s.entries id j d

/-- The entry that `modifyEntry` rewrites is the one `lookupEntry` finds; the
entries before and after it stay as they are. -/
theorem modifyEntry_split (l : List (String × Delivery)) (id : String) (d : Delivery)
    (f : Delivery → Delivery) (h : lookupEntry l id = some d) :
    ∃ pre post, l = pre ++ (id, d) :: post ∧
      modifyEntry l id f = pre ++ (id, f d) :: post ∧ ∀ e ∈ pre, e.1 ≠ id := by
  induction l with
  | nil => simp [lookupEntry] at h
  | cons e rest ih =>
    obtain ⟨k, x⟩ := e
    by_cases hk : k = id
    · subst hk
      simp [lookupEntry] at h
      subst h
      exact ⟨[], rest, by simp, by simp [modifyEntry], by simp⟩
    · simp [lookupEntry, hk] at h
      obtain ⟨pre, post, h1, h2, h3⟩ := ih h
      refine ⟨(k, x) :: pre, post, by simp [h1], by simp [modifyEntry, hk, h2], ?_⟩
      intro e he
      rcases List.mem_cons.mp he with rfl | he
      · exact hk
      · exact h3 e he

/-! ## Lemmas on the role gate and the validators -/

theorem requireRole_ok_iff (roles : List String) (user : Option User) (u : User) :
    requireRole roles user = .ok u ↔ user = some u ∧ u.role ∈ roles.map some := by
  cases user with
  | none => simp [requireRole]
  | some v =>
    by_cases h : v.role ∈ roles.map some
    · simp only [requireRole, h, if_true, Except.ok.injEq, Option.some.injEq]
      constructor
      · rintro rfl; exact ⟨rfl, h⟩
      · rintro ⟨rfl, _⟩; rfl
    · simp only [requireRole, h, if_false, Option.some.injEq]
      constructor
      · intro h'; cases h'
      · rintro ⟨rfl, h'⟩; exact absurd h' h

theorem statusErrors_nil_iff (v : StatusValue) : statusErrors v = [] ↔ statusIsIn v = true := by
  cases v with
  | text t =>
    by_cases h : t ∈ settableStatuses <;> simp [statusErrors, statusIsIn, h]
  | array elems =>
    simp [statusErrors, statusIsIn, List.filter_eq_nil_iff]

/-- A text that passes the check of line 198 is one of the five. -/
theorem statusIsIn_text (t : String) :
    statusIsIn (.text t) = true ↔
      t ∈ ["confirmed", "pickedUp", "inTransit", "delivered", "cancelled"] := by
  simp [statusIsIn, settableStatuses]

theorem statusIsIn_ne_pending (v : StatusValue) (h : statusIsIn v = true) :
    v ≠ .text "pending" := by
  rintro rfl
  simp [statusIsIn, settableStatuses] at h

theorem validateStatus_nil_iff (b : StatusBody) :
    validateStatus b = [] ↔
      statusIsIn b.status = true ∧
        b.location ≠ .notObject := by
  unfold validateStatus
  rw [List.append_eq_nil, statusErrors_nil_iff]
  by_cases h2 : b.location = .notObject <;> simp [h2]

theorem applyStatus_status (env : Env) (b : StatusBody) (d : Delivery) :
    (applyStatus env b d).status = b.status := by
  unfold applyStatus
  cases b.location <;> simp
  split_ifs <;> rfl

theorem notifyCaught_eq {α : Type} (ok : Bool) (k : α) : notifyCaught ok k = k := by
  cases ok <;> rfl

/-- What `PATCH /:id/status` leaves behind: the store as it was, or the store
with the assignments of lines 221-233 applied to the delivery `id`. -/
theorem updateStatus_store (s : Store) (env : Env) (user : Option User) (id : String)
    (b : StatusBody) :
    (updateStatus s env user id b).2 = s ∨
      ((∃ u, user = some u ∧ u.role ∈ [some "driver", some "admin"]) ∧ validateStatus b = [] ∧
        (∃ d, s.get id = some d) ∧
        (updateStatus s env user id b).2 = s.modify id (applyStatus env b)) := by
  unfold updateStatus
  cases hr : requireDriverOrAdmin user with
  | error r => simp
  | ok u =>
    have hu := (requireRole_ok_iff _ _ _).mp hr
    by_cases hv : validateStatus b = []
    · cases hg : s.get id with
      | none => simp [hv]
      | some d =>
        by_cases hd : u.role = some "driver" ∧ d.driverId ≠ some u.userId
        · simp [hv, hd]
        · right
          refine ⟨⟨u, hu⟩, hv, ⟨d, rfl⟩, ?_⟩
          cases hp : env.persistOk <;> simp [hv, hd, notifyCaught_eq]
    · simp [hv]

/-- What `PATCH /:id/assign` leaves behind. -/
theorem assignDriver_store (s : Store) (env : Env) (user : Option User) (id : String)
    (b : AssignBody) :
    (assignDriver s env user id b).2 = s ∨
      ((∃ u, user = some u ∧ u.role = some "admin") ∧ b.driverId ≠ "" ∧ (∃ d, s.get id = some d) ∧
        (assignDriver s env user id b).2 = s.modify id (applyAssign env b)) := by
  unfold assignDriver
  cases hr : requireAdmin user with
  | error r => simp
  | ok u =>
    have hu := (requireRole_ok_iff _ _ _).mp hr
    by_cases hv : b.driverId = ""
    · simp [validateAssign, hv]
    · cases hg : s.get id with
      | none => simp [validateAssign, hv]
      | some d =>
        right
        refine ⟨⟨u, hu.1, by simpa using hu.2⟩, hv, ⟨d, rfl⟩, ?_⟩
        cases hp : env.persistOk <;> simp [validateAssign, hv, notifyCaught_eq]

/-- What `PATCH /:id/cancel` leaves behind. -/
theorem cancelDelivery_store (s : Store) (env : Env) (user : Option User) (id : String) :
    (cancelDelivery s env user id).2 = s ∨
      (∃ u d, user = some u ∧ u.role = some "customer" ∧ s.get id = some d ∧
        d.customerId = u.userId ∧ d.status ∉ [.text "pickedUp", .text "inTransit", .text "delivered"] ∧
        (cancelDelivery s env user id).2 = s.modify id (applyCancel env)) := by
  unfold cancelDelivery
  cases hr : requireCustomer user with
  | error r => simp
  | ok u =>
    have hu := (requireRole_ok_iff _ _ _).mp hr
    cases hg : s.get id with
    | none => simp
    | some d =>
      by_cases ho : d.customerId = u.userId
      · by_cases hs : d.status ∈ [.text "pickedUp", .text "inTransit", .text "delivered"]
        · simp [ho, hs]
        · right
          refine ⟨u, d, hu.1, by simpa using hu.2, rfl, ho, hs, ?_⟩
          cases hp : env.persistOk <;> cases ht : truthy d.driverId <;>
            simp [ho, hs, notifyCaught_eq]
      · simp [ho]

/-! ## The answers of `PATCH /:id/status`, case by case -/

theorem updateStatus_noUser (s : Store) (env : Env) (id : String) (b : StatusBody) :
    updateStatus s env none id b = (.json 401 (.error "Authentication required"), s) := rfl

theorem updateStatus_badRole (s : Store) (env : Env) (u : User) (id : String) (b : StatusBody)
    (hrole : u.role ∉ [some "driver", some "admin"]) :
    updateStatus s env (some u) id b = (.json 403 (.error "Insufficient permissions"), s) := by
  simp only [updateStatus, requireDriverOrAdmin, requireRole, List.map_cons, List.map_nil, if_neg hrole]

theorem updateStatus_invalid (s : Store) (env : Env) (u : User) (id : String) (b : StatusBody)
    (hrole : u.role ∈ [some "driver", some "admin"]) (hv : validateStatus b ≠ []) :
    updateStatus s env (some u) id b = (.json 400 (.errors (validateStatus b)), s) := by
  simp only [updateStatus, requireDriverOrAdmin, requireRole, List.map_cons, List.map_nil, if_pos hrole, if_pos hv]

theorem updateStatus_missing (s : Store) (env : Env) (u : User) (id : String) (b : StatusBody)
    (hrole : u.role ∈ [some "driver", some "admin"]) (hv : validateStatus b = [])
    (hg : s.get id = none) :
    updateStatus s env (some u) id b = (.json 404 (.error "Delivery not found"), s) := by
  have hv' : ¬ validateStatus b ≠ [] := fun h => h hv
  simp only [updateStatus, requireDriverOrAdmin, requireRole, List.map_cons, List.map_nil, if_pos hrole, if_neg hv', hg]

theorem updateStatus_notAssigned (s : Store) (env : Env) (u : User) (id : String)
    (b : StatusBody) (d : Delivery) (hrole : u.role ∈ [some "driver", some "admin"])
    (hv : validateStatus b = []) (hg : s.get id = some d)
    (hd : u.role = some "driver" ∧ d.driverId ≠ some u.userId) :
    updateStatus s env (some u) id b = (.json 403 (.error "Access denied"), s) := by
  have hv' : ¬ validateStatus b ≠ [] := fun h => h hv
  simp only [updateStatus, requireDriverOrAdmin, requireRole, List.map_cons, List.map_nil, if_pos hrole, if_neg hv', hg,
    if_pos hd]

theorem updateStatus_pass (s : Store) (env : Env) (u : User) (id : String)
    (b : StatusBody) (d : Delivery) (hrole : u.role ∈ [some "driver", some "admin"])
    (hv : validateStatus b = []) (hg : s.get id = some d)
    (hd : ¬ (u.role = some "driver" ∧ d.driverId ≠ some u.userId)) :
    updateStatus s env (some u) id b
      = (if env.persistOk = true then
          .json 200 (.message "Delivery status updated successfully" (applyStatus env b d))
         else .thrown, s.modify id (applyStatus env b)) := by
  have hv' : ¬ validateStatus b ≠ [] := fun h => h hv
  simp only [updateStatus, requireDriverOrAdmin, requireRole, List.map_cons, List.map_nil, if_pos hrole, if_neg hv', hg,
    if_neg hd, notifyCaught_eq]
  cases env.persistOk <;> simp

/-! ## The answers of `PATCH /:id/cancel`, case by case -/

theorem cancelDelivery_noUser (s : Store) (env : Env) (id : String) :
    cancelDelivery s env none id = (.json 401 (.error "Authentication required"), s) := rfl

theorem cancelDelivery_badRole (s : Store) (env : Env) (u : User) (id : String)
    (hrole : u.role ≠ some "customer") :
    cancelDelivery s env (some u) id = (.json 403 (.error "Insufficient permissions"), s) := by
  have h : u.role ∉ [some "customer"] := by simpa using hrole
  simp only [cancelDelivery, requireCustomer, requireRole, List.map_cons, List.map_nil, if_neg h]

theorem cancelDelivery_missing (s : Store) (env : Env) (u : User) (id : String)
    (hrole : u.role = some "customer") (hg : s.get id = none) :
    cancelDelivery s env (some u) id = (.json 404 (.error "Delivery not found"), s) := by
  have h : u.role ∈ [some "customer"] := by simpa using hrole
  simp only [cancelDelivery, requireCustomer, requireRole, List.map_cons, List.map_nil, if_pos h, hg]

theorem cancelDelivery_notOwner (s : Store) (env : Env) (u : User) (id : String) (d : Delivery)
    (hrole : u.role = some "customer") (hg : s.get id = some d) (ho : d.customerId ≠ u.userId) :
    cancelDelivery s env (some u) id = (.json 403 (.error "Access denied"), s) := by
  have h : u.role ∈ [some "customer"] := by simpa using hrole
  simp only [cancelDelivery, requireCustomer, requireRole, List.map_cons, List.map_nil, if_pos h, hg, if_pos ho]

theorem cancelDelivery_tooLate (s : Store) (env : Env) (u : User) (id : String) (d : Delivery)
    (hrole : u.role = some "customer") (hg : s.get id = some d) (ho : d.customerId = u.userId)
    (hs : d.status ∈ [.text "pickedUp", .text "inTransit", .text "delivered"]) :
    cancelDelivery s env (some u) id
      = (.json 400 (.error "Delivery cannot be cancelled at this stage"), s) := by
  have h : u.role ∈ [some "customer"] := by simpa using hrole
  have ho' : ¬ d.customerId ≠ u.userId := fun h => h ho
  simp only [cancelDelivery, requireCustomer, requireRole, List.map_cons, List.map_nil, if_pos h, hg, if_neg ho', if_pos hs]

theorem cancelDelivery_pass (s : Store) (env : Env) (u : User) (id : String) (d : Delivery)
    (hrole : u.role = some "customer") (hg : s.get id = some d) (ho : d.customerId = u.userId)
    (hs : d.status ∉ [.text "pickedUp", .text "inTransit", .text "delivered"]) :
    cancelDelivery s env (some u) id
      = (if env.persistOk = true then
          .json 200 (.message "Delivery cancelled successfully" (applyCancel env d))
         else .thrown, s.modify id (applyCancel env)) := by
  have h : u.role ∈ [some "customer"] := by simpa using hrole
  have ho' : ¬ d.customerId ≠ u.userId := fun h => h ho
  simp only [cancelDelivery, requireCustomer, requireRole, List.map_cons, List.map_nil, if_pos h, hg, if_neg ho', if_neg hs,
    notifyCaught_eq]
  cases env.persistOk <;> simp

/-! ## The answers of `POST /` -/

theorem validateCreate_nil_iff (env : Env) (b : CreateBody) :
    validateCreate env b = [] ↔
      b.pickupAddress ≠ "" ∧ b.deliveryAddress ≠ "" ∧ b.customerName ≠ "" ∧
      b.customerPhone ≠ "" ∧ env.isEmail b.customerEmail = true ∧ (1 / 10 : ℚ) ≤ b.weight ∧
      1 ≤ b.items.length ∧ b.type ∈ ["express", "standard", "economy"] ∧
      env.isISO8601 b.pickupDate = true := by
  unfold validateCreate
  simp only [List.append_eq_nil, ite_eq_left_iff, List.cons_ne_nil, imp_false, not_not,
    and_assoc]

/-- A 201 answer of `POST /` means that the requester is a customer, the body
passed validation and both the distance matrix and the Firestore call returned. -/
theorem createDelivery_created (s : Store) (env : Env) (user : Option User) (b : CreateBody)
    (h : (createDelivery s env user b).1.code = some 201) :
    ∃ u dm, user = some u ∧ u.role = some "customer" ∧ validateCreate env b = [] ∧
      env.route = some dm ∧ env.persistOk = true := by
  unfold createDelivery at h
  cases user with
  | none => simp [requireCustomer, requireRole, List.map_cons, List.map_nil, Response.code] at h
  | some u =>
    by_cases hrole : u.role = some "customer"
    · by_cases hv : validateCreate env b = []
      · cases hr : env.route with
        | none => simp [requireCustomer, requireRole, hrole, hv, hr, Response.code] at h
        | some dm =>
          cases hpers : env.persistOk with
          | false =>
            simp [requireCustomer, requireRole, hrole, hv, hr, hpers, Response.code] at h
          | true => exact ⟨u, dm, rfl, hrole, hv, rfl, rfl⟩
      · simp [requireCustomer, requireRole, List.map_cons, List.map_nil, hrole, hv, Response.code] at h
    · simp [requireCustomer, requireRole, List.map_cons, List.map_nil, hrole, Response.code] at h

/-- What `POST /` leaves behind: the store as it was, or the store with the new
record set under the fresh uuid. -/
theorem createDelivery_store (s : Store) (env : Env) (user : Option User) (b : CreateBody) :
    (createDelivery s env user b).2 = s ∨
      ∃ u dm, user = some u ∧ u.role = some "customer" ∧ validateCreate env b = [] ∧
        env.route = some dm ∧
        (createDelivery s env user b).2 = s.set env.uuid (newDelivery env u b dm) := by
  unfold createDelivery
  cases user with
  | none => simp [requireCustomer, requireRole, List.map_cons, List.map_nil]
  | some u =>
    by_cases hrole : u.role = some "customer"
    · by_cases hv : validateCreate env b = []
      · cases hr : env.route with
        | none => simp [requireCustomer, requireRole, hrole, hv]
        | some dm =>
          right
          refine ⟨u, dm, rfl, hrole, hv, rfl, ?_⟩
          cases hpers : env.persistOk <;>
            simp [requireCustomer, requireRole, hrole, hv, notifyCaught_eq]
      · simp [requireCustomer, requireRole, List.map_cons, List.map_nil, hrole, hv]
    · simp [requireCustomer, requireRole, List.map_cons, List.map_nil, hrole]

theorem listDeliveries_store (s : Store) (user : Option User) (q : ListQuery) :
    (listDeliveries s user q).2 = s := by
  unfold listDeliveries
  cases user <;> rfl

theorem getDelivery_store (s : Store) (user : Option User) (id : String) :
    (getDelivery s user id).2 = s := by
  unfold getDelivery
  cases s.get id with
  | none => rfl
  | some d =>
    cases user with
    | none => rfl
    | some u =>
      simp only
      split_ifs <;> rfl

theorem statsOverview_store (s : Store) (user : Option User) :
    (statsOverview s user).2 = s := by
  unfold statsOverview
  cases requireAdmin user <;> rfl

/-- The record found under `id` after a request is the record that was there,
or that record after the assignments of one of the three mutating handlers, or
the record `POST /` has just built. -/
theorem step_get_cases (s : Store) (env : Env) (user : Option User) (op : Op) (id : String)
    (d' : Delivery) (h : (step s env user op).2.get id = some d') :
    s.get id = some d' ∨
    (∃ b d, op = .updateStatus id b ∧ validateStatus b = [] ∧ s.get id = some d ∧
      d' = applyStatus env b d) ∨
    (∃ b d, op = .assignDriver id b ∧ s.get id = some d ∧ d' = applyAssign env b d) ∨
    (∃ d, op = .cancel id ∧ s.get id = some d ∧ d' = applyCancel env d) ∨
    (∃ b u dm, op = .create b ∧ env.uuid = id ∧ d' = newDelivery env u b dm) := by
  cases op with
  | create b =>
    simp only [step] at h
    rcases createDelivery_store s env user b with hs | ⟨u, dm, _, _, _, _, hs⟩
    · left; rw [hs] at h; exact h
    · rw [hs, Store.get_set] at h
      by_cases hj : id = env.uuid
      · right; right; right; right
        simp only [hj, if_true, Option.some.injEq] at h
        exact ⟨b, u, dm, rfl, hj.symm, h.symm⟩
      · left; simpa [hj] using h
  | list q => left; simpa [step, listDeliveries_store] using h
  | get j => left; simpa [step, getDelivery_store] using h
  | stats => left; simpa [step, statsOverview_store] using h
  | updateStatus j b =>
    simp only [step] at h
    rcases updateStatus_store s env user j b with hs | ⟨_, hv, ⟨d, hg⟩, hs⟩
    · left; rw [hs] at h; exact h
    · rw [hs, Store.get_modify] at h
      by_cases hj : id = j
      · subst hj
        right; left
        simp only [if_true, hg, Option.map_some', Option.some.injEq] at h
        exact ⟨b, d, rfl, hv, hg, h.symm⟩
      · left; simpa [hj] using h
  | assignDriver j b =>
    simp only [step] at h
    rcases assignDriver_store s env user j b with hs | ⟨_, _, ⟨d, hg⟩, hs⟩
    · left; rw [hs] at h; exact h
    · rw [hs, Store.get_modify] at h
      by_cases hj : id = j
      · subst hj
        right; right; left
        simp only [if_true, hg, Option.map_some', Option.some.injEq] at h
        exact ⟨b, d, rfl, hg, h.symm⟩
      · left; simpa [hj] using h
  | cancel j =>
    simp only [step] at h
    rcases cancelDelivery_store s env user j with hs | ⟨_, d, _, _, hg, _, _, hs⟩
    · left; rw [hs] at h; exact h
    · rw [hs, Store.get_modify] at h
      by_cases hj : id = j
      · subst hj
        right; right; right; left
        simp only [if_true, hg, Option.map_some', Option.some.injEq] at h
        exact ⟨d, rfl, hg, h.symm⟩
      · left; simpa [hj] using h

theorem applyStatus_actualDeliveryDate (env : Env) (b : StatusBody) (d : Delivery) :
    (applyStatus env b d).actualDeliveryDate = d.actualDeliveryDate ∨
      (b.status = .text "delivered" ∧ (applyStatus env b d).actualDeliveryDate = some env.now2) := by
  unfold applyStatus
  cases b.location with
  | absent => left; rfl
  | notObject => left; rfl
  | object l =>
    by_cases h1 : b.status = .text "pickedUp"
    · left; simp [h1]
    · by_cases h2 : b.status = .text "delivered"
      · right; simp [h2]
      · left; simp [h1, h2]

/-! ## The answers of `PATCH /:id/assign`, case by case -/

theorem assignDriver_noUser (s : Store) (env : Env) (id : String) (b : AssignBody) :
    assignDriver s env none id b = (.json 401 (.error "Authentication required"), s) := rfl

theorem assignDriver_badRole (s : Store) (env : Env) (u : User) (id : String) (b : AssignBody)
    (hrole : u.role ≠ some "admin") :
    assignDriver s env (some u) id b = (.json 403 (.error "Insufficient permissions"), s) := by
  have h : u.role ∉ [some "admin"] := by simpa using hrole
  simp only [assignDriver, requireAdmin, requireRole, List.map_cons, List.map_nil, if_neg h]

theorem assignDriver_invalid (s : Store) (env : Env) (u : User) (id : String) (b : AssignBody)
    (hrole : u.role = some "admin") (hv : b.driverId = "") :
    assignDriver s env (some u) id b = (.json 400 (.errors ["Driver ID is required"]), s) := by
  simp [assignDriver, requireAdmin, requireRole, List.map_cons, List.map_nil, hrole, validateAssign, hv]

theorem assignDriver_missing (s : Store) (env : Env) (u : User) (id : String) (b : AssignBody)
    (hrole : u.role = some "admin") (hv : b.driverId ≠ "") (hg : s.get id = none) :
    assignDriver s env (some u) id b = (.json 404 (.error "Delivery not found"), s) := by
  simp [assignDriver, requireAdmin, requireRole, List.map_cons, List.map_nil, hrole, validateAssign, hv, hg]

theorem assignDriver_pass (s : Store) (env : Env) (u : User) (id : String) (b : AssignBody)
    (d : Delivery) (hrole : u.role = some "admin") (hv : b.driverId ≠ "")
    (hg : s.get id = some d) :
    assignDriver s env (some u) id b
      = (if env.persistOk = true then
          .json 200 (.message "Driver assigned successfully" (applyAssign env b d))
         else .thrown, s.modify id (applyAssign env b)) := by
  cases hp : env.persistOk <;>
    simp [assignDriver, requireAdmin, requireRole, List.map_cons, List.map_nil, hrole, validateAssign, hv, hg, hp,
      notifyCaught_eq]

/-! ## The role gate in front of each handler -/

theorem createDelivery_noUser (s : Store) (env : Env) (b : CreateBody) :
    createDelivery s env none b = (.json 401 (.error "Authentication required"), s) := rfl

theorem createDelivery_badRole (s : Store) (env : Env) (u : User) (b : CreateBody)
    (hrole : u.role ≠ some "customer") :
    createDelivery s env (some u) b = (.json 403 (.error "Insufficient permissions"), s) := by
  have h : u.role ∉ [some "customer"] := by simpa using hrole
  simp only [createDelivery, requireCustomer, requireRole, List.map_cons, List.map_nil, if_neg h]

theorem statsOverview_noUser (s : Store) :
    statsOverview s none = (.json 401 (.error "Authentication required"), s) := rfl

theorem statsOverview_badRole (s : Store) (u : User) (hrole : u.role ≠ some "admin") :
    statsOverview s (some u) = (.json 403 (.error "Insufficient permissions"), s) := by
  have h : u.role ∉ [some "admin"] := by simpa using hrole
  simp only [statsOverview, requireAdmin, requireRole, List.map_cons, List.map_nil, if_neg h]

theorem statsOverview_pass (s : Store) (u : User) (hrole : u.role = some "admin") :
    statsOverview s (some u) = (.json 200 (.stats (overview s.values)), s) := by
  have h : u.role ∈ [some "admin"] := by simpa using hrole
  simp only [statsOverview, requireAdmin, requireRole, List.map_cons, List.map_nil, if_pos h]

theorem createDelivery_past_gate (s : Store) (env : Env) (u : User) (b : CreateBody)
    (hrole : u.role = some "customer") : (createDelivery s env (some u) b).1 ∉ gateAnswers := by
  by_cases hv : validateCreate env b = []
  · cases hr : env.route with
    | none =>
      simp [createDelivery, requireCustomer, requireRole, hrole, hv, hr, gateAnswers]
    | some dm =>
      cases hpers : env.persistOk <;>
        simp [createDelivery, requireCustomer, requireRole, hrole, hv, hr, hpers,
          gateAnswers, notifyCaught_eq]
  · simp [createDelivery, requireCustomer, requireRole, List.map_cons, List.map_nil, hrole, hv, gateAnswers]

theorem updateStatus_past_gate (s : Store) (env : Env) (u : User) (id : String)
    (b : StatusBody) (hrole : u.role ∈ [some "driver", some "admin"]) :
    (updateStatus s env (some u) id b).1 ∉ gateAnswers := by
  by_cases hv : validateStatus b = []
  · cases hg : s.get id with
    | none => rw [updateStatus_missing s env u id b hrole hv hg]; simp [gateAnswers]
    | some d =>
      by_cases hd : u.role = some "driver" ∧ d.driverId ≠ some u.userId
      · rw [updateStatus_notAssigned s env u id b d hrole hv hg hd]; simp [gateAnswers]
      · rw [updateStatus_pass s env u id b d hrole hv hg hd]
        cases env.persistOk <;> simp [gateAnswers]
  · rw [updateStatus_invalid s env u id b hrole hv]; simp [gateAnswers]

theorem assignDriver_past_gate (s : Store) (env : Env) (u : User) (id : String)
    (b : AssignBody) (hrole : u.role = some "admin") :
    (assignDriver s env (some u) id b).1 ∉ gateAnswers := by
  by_cases hv : b.driverId = ""
  · rw [assignDriver_invalid s env u id b hrole hv]; simp [gateAnswers]
  · cases hg : s.get id with
    | none => rw [assignDriver_missing s env u id b hrole hv hg]; simp [gateAnswers]
    | some d =>
      rw [assignDriver_pass s env u id b d hrole hv hg]
      cases env.persistOk <;> simp [gateAnswers]

theorem cancelDelivery_past_gate (s : Store) (env : Env) (u : User) (id : String)
    (hrole : u.role = some "customer") : (cancelDelivery s env (some u) id).1 ∉ gateAnswers := by
  cases hg : s.get id with
  | none => rw [cancelDelivery_missing s env u id hrole hg]; simp [gateAnswers]
  | some d =>
    by_cases ho : d.customerId = u.userId
    · by_cases hs : d.status ∈ [.text "pickedUp", .text "inTransit", .text "delivered"]
      · rw [cancelDelivery_tooLate s env u id d hrole hg ho hs]; simp [gateAnswers]
      · rw [cancelDelivery_pass s env u id d hrole hg ho hs]
        cases env.persistOk <;> simp [gateAnswers]
    · rw [cancelDelivery_notOwner s env u id d hrole hg ho]; simp [gateAnswers]

/-! ## The concrete run -/

theorem createDelivery_ok (s : Store) (env : Env) (u : User) (b : CreateBody)
    (dm : DistanceMatrix) (hr : u.role = some "customer") (hv : validateCreate env b = [])
    (hroute : env.route = some dm) (hpers : env.persistOk = true) :
    createDelivery s env (some u) b
      = (.json 201 (.message "Delivery created successfully" (newDelivery env u b dm)),
          s.set env.uuid (newDelivery env u b dm)) := by
  simp [createDelivery, requireCustomer, requireRole, hr, hv, hroute, hpers, notifyCaught_eq]

theorem validateCreate_sample : validateCreate sampleEnv sampleBody = [] := by
  simp [validateCreate, sampleEnv, sampleBody]
  norm_num

theorem newDelivery_sample :
    newDelivery sampleEnv sampleCustomer sampleBody
      { distance := ⟨"10 km", 10000⟩, duration := ⟨"20 mins", 1200⟩ } = sampleDelivery := by
  have hp : roundedPrice (rawPrice 10000 "standard" 4) = 22 := by
    simp [roundedPrice, rawPrice, mathRound]
    norm_num
  have he : estimatedDelivery 86400000 1200 = 94800000 := by
    norm_num [estimatedDelivery, addHours, timeClip]
  simp [newDelivery, sampleDelivery, sampleEnv, sampleCustomer, sampleBody, hp, he]

theorem step_create_sample :
    step Store.empty sampleEnv (some sampleCustomer) (.create sampleBody)
      = (.json 201 (.message "Delivery created successfully" sampleDelivery), storeCreated) := by
  have h := createDelivery_ok Store.empty sampleEnv sampleCustomer sampleBody
    { distance := ⟨"10 km", 10000⟩, duration := ⟨"20 mins", 1200⟩ } rfl validateCreate_sample
    rfl rfl
  rw [newDelivery_sample] at h
  exact h

theorem storeCreated_reachable : Reachable storeCreated := by
  have h := Reachable.next sampleEnv (some sampleCustomer) (.create sampleBody) Reachable.init
  rw [step_create_sample] at h
  exact h

theorem storeDelivered_reachable : Reachable storeDelivered :=
  Reachable.next sampleEnv (some sampleAdmin) (.updateStatus "d-1" ⟨.text "delivered", .absent⟩)
    storeCreated_reachable

theorem storeDeliveredAt_reachable : Reachable storeDeliveredAt :=
  Reachable.next sampleEnv (some sampleAdmin)
    (.updateStatus "d-1" ⟨.text "delivered", .object ⟨12, 77⟩⟩) storeCreated_reachable

/-! ## C1: terminal statuses -/

/-- C1, counterexample. The store `storeDeliveredAt` is reachable and holds the
delivery `d-1` with status `delivered`; an admin's status update to `confirmed`
is answered with 200 and the status of `d-1` is `confirmed` afterwards, and an
admin's driver assignment does the same. -/
theorem c1_terminal_status_counterexample :
    Reachable storeDeliveredAt ∧
    storeDeliveredAt.statusOf "d-1" = some (.text "delivered") ∧
    (updateStatus storeDeliveredAt sampleEnv (some sampleAdmin) "d-1"
      ⟨.text "confirmed", .absent⟩).1.code = some 200 ∧
    (updateStatus storeDeliveredAt sampleEnv (some sampleAdmin) "d-1"
      ⟨.text "confirmed", .absent⟩).2.statusOf "d-1" = some (.text "confirmed") ∧
    (assignDriver storeDeliveredAt sampleEnv (some sampleAdmin) "d-1" ⟨"drv-1"⟩).1.code
      = some 200 ∧
    (assignDriver storeDeliveredAt sampleEnv (some sampleAdmin) "d-1" ⟨"drv-1"⟩).2.statusOf "d-1" = some (.text "confirmed") :=
  ⟨storeDeliveredAt_reachable, by decide, by decide, by decide, by decide, by decide⟩

/-- C1, amended. Let the delivery `id` have status `delivered` or `cancelled`.
A cancel request, whoever sends it and whichever delivery it names, leaves that
status as it is. A status update leaves it as it is unless it names `id`, comes
from a driver or an admin and its body passes the validation of lines 198-200
(a `status` string passes when it is one of the five settable ones), in which
case the status of `id` is the `status` value sent afterwards. A driver
assignment leaves it as it is unless it names `id` and comes from an
admin, in which case the status of `id` is `confirmed` afterwards. -/
theorem c1_terminal_status_changes (s : Store) (env : Env) (user : Option User)
    (id j : String) (st : StatusValue) (hst : st ∈ [.text "delivered", .text "cancelled"])
    (h : s.statusOf id = some st) :
    (cancelDelivery s env user j).2.statusOf id = some st ∧
    (∀ b : StatusBody,
      (updateStatus s env user j b).2.statusOf id = some st ∨
      (j = id ∧ (∃ u, user = some u ∧ u.role ∈ [some "driver", some "admin"]) ∧
        validateStatus b = [] ∧
        (∀ t, b.status = .text t →
          t ∈ ["confirmed", "pickedUp", "inTransit", "delivered", "cancelled"]) ∧
        (updateStatus s env user j b).2.statusOf id = some b.status)) ∧
    (∀ b : AssignBody,
      (assignDriver s env user j b).2.statusOf id = some st ∨
      (j = id ∧ (∃ u, user = some u ∧ u.role = some "admin") ∧
        (assignDriver s env user j b).2.statusOf id = some (.text "confirmed"))) := by
  refine ⟨?_, ?_, ?_⟩
  · rcases cancelDelivery_store s env user j with hs | ⟨u, d, _, _, hg, _, hns, hs⟩
    · rw [hs]; exact h
    · rw [hs]
      by_cases hj : id = j
      · subst hj
        have hd : d.status = st := by
          simpa [Store.statusOf, hg] using h
        have hc : st = .text "cancelled" := by
          rw [hd] at hns
          simp only [List.mem_cons, List.mem_singleton, List.not_mem_nil, or_false] at hst hns
          rcases hst with rfl | rfl
          · exact absurd (Or.inr (Or.inr rfl)) hns
          · rfl
        simp [Store.statusOf, Store.get_modify_self, hg, applyCancel, hc]
      · simpa [Store.statusOf, Store.get_modify, hj] using h
  · intro b
    rcases updateStatus_store s env user j b with hs | ⟨hu, hv, ⟨d, hg⟩, hs⟩
    · left; rw [hs]; exact h
    · by_cases hj : id = j
      · subst hj
        right
        refine ⟨rfl, hu, hv, ?_, ?_⟩
        · intro t ht
          have hin := ((validateStatus_nil_iff b).mp hv).1
          rw [ht] at hin
          exact (statusIsIn_text t).mp hin
        rw [hs]
        simp [Store.statusOf, Store.get_modify_self, hg, applyStatus_status]
      · left
        rw [hs]
        simpa [Store.statusOf, Store.get_modify, hj] using h
  · intro b
    rcases assignDriver_store s env user j b with hs | ⟨hu, _, ⟨d, hg⟩, hs⟩
    · left; rw [hs]; exact h
    · by_cases hj : id = j
      · subst hj
        right
        refine ⟨rfl, hu, ?_⟩
        rw [hs]
        simp [Store.statusOf, Store.get_modify_self, hg, applyAssign]
      · left
        rw [hs]
        simpa [Store.statusOf, Store.get_modify, hj] using h

/-- C1, amended, at a concrete input: the delivered `d-1` of `storeDeliveredAt`,
requests of the customer who owns it. -/
theorem c1_terminal_status_changes_witness :
    (cancelDelivery storeDeliveredAt sampleEnv (some sampleCustomer) "d-1").2.statusOf "d-1" = some (.text "delivered") :=
  (c1_terminal_status_changes storeDeliveredAt sampleEnv (some sampleCustomer) "d-1" "d-1"
    (.text "delivered") (by decide) (by decide)).1

/-! ## C2: transitions of `PATCH /:id/status` -/

/-- C2, counterexample. In the reachable store `storeCreated` the delivery `d-1`
is `pending`; an admin's status update to `delivered` is answered with 200 and
the status is `delivered` afterwards, although `delivered` is not the successor
of `pending`. -/
theorem c2_transition_counterexample :
    Reachable storeCreated ∧
    storeCreated.statusOf "d-1" = some (.text "pending") ∧
    (updateStatus storeCreated sampleEnv (some sampleAdmin) "d-1"
      ⟨.text "delivered", .absent⟩).1.code = some 200 ∧
    (updateStatus storeCreated sampleEnv (some sampleAdmin) "d-1"
      ⟨.text "delivered", .absent⟩).2.statusOf "d-1" = some (.text "delivered") :=
  ⟨storeCreated_reachable, by decide, by decide, by decide⟩

theorem updateStatus_invalid_code (s : Store) (env : Env) (user : Option User) (id : String)
    (b : StatusBody) (hv : ¬ validateStatus b = []) :
    (updateStatus s env user id b).1.code = some 400 ∨
      (updateStatus s env user id b).1.code = some 401 ∨
      (updateStatus s env user id b).1.code = some 403 := by
  cases user with
  | none => rw [updateStatus_noUser]; simp [Response.code]
  | some u =>
    by_cases hrole : u.role ∈ [some "driver", some "admin"]
    · rw [updateStatus_invalid s env u id b hrole hv]; simp [Response.code]
    · rw [updateStatus_badRole s env u id b hrole]; simp [Response.code]

/-- The answers of `PATCH /:id/status`: a 200 means the `status` value passed
the check of line 198 and is the stored status; an admin's request on an
existing delivery with a value that passes is answered 200 when the Firestore
call returns; every other JSON answer leaves the store unchanged. -/
theorem updateStatus_answers (s : Store) (env : Env) (user : Option User)
    (id : String) (b : StatusBody) :
    ((updateStatus s env user id b).1.code = some 200 →
      statusIsIn b.status = true ∧
        (updateStatus s env user id b).2.statusOf id = some b.status) ∧
    (∀ u d, user = some u → u.role = some "admin" → s.get id = some d →
      statusIsIn b.status = true →
      b.location ≠ .notObject → env.persistOk = true →
      (updateStatus s env user id b).1
        = .json 200 (.message "Delivery status updated successfully" (applyStatus env b d))) ∧
    (∀ code body, (updateStatus s env user id b).1 = .json code body → code ≠ 200 →
      (updateStatus s env user id b).2 = s ∧ code ∈ [400, 401, 403, 404]) ∧
    (∀ body, (updateStatus s env user id b).1 = .json 400 body →
      body = .errors (validateStatus b) ∧ validateStatus b ≠ []) := by
  cases user with
  | none =>
    rw [updateStatus_noUser]
    simp [Response.code]
  | some u =>
    by_cases hrole : u.role ∈ [some "driver", some "admin"]
    · by_cases hv : validateStatus b = []
      · have hvb := (validateStatus_nil_iff b).mp hv
        cases hg : s.get id with
        | none =>
          rw [updateStatus_missing s env u id b hrole hv hg]
          simp [Response.code]
        | some d =>
          by_cases hd : u.role = some "driver" ∧ d.driverId ≠ some u.userId
          · have hna : ¬ u.role = some "admin" := by
              rw [hd.1]; decide
            rw [updateStatus_notAssigned s env u id b d hrole hv hg hd]
            simp [Response.code, hna]
          · rw [updateStatus_pass s env u id b d hrole hv hg hd]
            have hst : (s.modify id (applyStatus env b)).statusOf id = some b.status := by
              simp [Store.statusOf, Store.get_modify_self, hg, applyStatus_status]
            refine ⟨fun _ => ⟨hvb.1, hst⟩, ?_, ?_, ?_⟩
            · intro u' d' _ _ hd' _ _ hp
              cases hd'
              simp [hp]
            · intro code body h hc
              cases hp : env.persistOk <;> simp [hp] at h
              exact absurd h.1.symm hc
            · intro body h
              cases hp : env.persistOk <;> simp [hp] at h
      · rw [updateStatus_invalid s env u id b hrole hv]
        refine ⟨by simp [Response.code], ?_, by simp, ?_⟩
        · intro u' d' _ _ _ h1 h2 _
          exact absurd ((validateStatus_nil_iff b).mpr ⟨h1, h2⟩) hv
        · intro body h
          simp only [Response.json.injEq, true_and] at h
          exact ⟨h.symm, hv⟩
    · have hna : ¬ u.role = some "admin" := by
        intro h; apply hrole; simp [h]
      rw [updateStatus_badRole s env u id b hrole]
      refine ⟨by simp [Response.code], ?_, by simp, by simp⟩
      intro u' d' hu' ha
      cases hu'
      exact absurd ha hna

/-- C2, amended. A status update that is answered with 200 has set the status
of the delivery to the `status` value sent, which passed the check of line
198; when that value is a string, it is one of `confirmed`, `pickedUp`,
`inTransit`, `delivered`, `cancelled`. The current status is not looked at:
for an admin, every request with one of these five strings on an existing
delivery is answered with 200 when the persistence call returns. Every other
JSON answer is a 400, 401, 403 or 404 and leaves the store unchanged, and a 400
carries the validation errors of the body. -/
theorem c2_updateStatus_sets_requested (s : Store) (env : Env) (user : Option User)
    (id : String) (b : StatusBody) :
    ((updateStatus s env user id b).1.code = some 200 →
      validateStatus b = [] ∧
      (updateStatus s env user id b).2.statusOf id = some b.status ∧
      ∀ t, b.status = .text t →
        t ∈ ["confirmed", "pickedUp", "inTransit", "delivered", "cancelled"]) ∧
    (∀ u d t, user = some u → u.role = some "admin" → s.get id = some d →
      b.status = .text t →
      t ∈ ["confirmed", "pickedUp", "inTransit", "delivered", "cancelled"] →
      b.location ≠ .notObject → env.persistOk = true →
      (updateStatus s env user id b).1
        = .json 200 (.message "Delivery status updated successfully" (applyStatus env b d))) ∧
    (∀ code body, (updateStatus s env user id b).1 = .json code body → code ≠ 200 →
      (updateStatus s env user id b).2 = s ∧ code ∈ [400, 401, 403, 404]) ∧
    (∀ body, (updateStatus s env user id b).1 = .json 400 body →
      body = .errors (validateStatus b) ∧ validateStatus b ≠ []) := by
  obtain ⟨h1, h2, h3, h4⟩ := updateStatus_answers s env user id b
  refine ⟨fun hc => ?_, ?_, h3, h4⟩
  · obtain ⟨hin, hst⟩ := h1 hc
    refine ⟨?_, hst, ?_⟩
    · by_contra hv
      rcases updateStatus_invalid_code s env user id b hv with hcode | hcode | hcode <;>
        · rw [hcode] at hc
          cases hc
    · intro t ht
      rw [ht] at hin
      exact (statusIsIn_text t).mp hin
  · intro u d t hu hrole hg ht hmem hloc hp
    refine h2 u d hu hrole hg ?_ hloc hp
    rw [ht]
    exact (statusIsIn_text t).mpr hmem

/-- C2, amended, at a concrete input: an admin moves the pending `d-1` of
`storeCreated` straight to `inTransit`. -/
theorem c2_updateStatus_sets_requested_witness :
    (updateStatus storeCreated sampleEnv (some sampleAdmin) "d-1" ⟨.text "inTransit", .absent⟩).1
      = .json 200 (.message "Delivery status updated successfully"
          (applyStatus sampleEnv ⟨.text "inTransit", .absent⟩ sampleDelivery)) :=
  (c2_updateStatus_sets_requested storeCreated sampleEnv (some sampleAdmin) "d-1"
    ⟨.text "inTransit", .absent⟩).2.1 sampleAdmin sampleDelivery "inTransit" rfl rfl rfl rfl
    (by decide) (by decide) rfl

/-! ## C3: the cancellation window -/

/-- C3. Let the delivery `id` exist and let the requester be the customer who
owns it. The cancel request is answered with the invalid-transition error (400,
store unchanged) if and only if the current status is `pickedUp`, `inTransit`
or `delivered`. For every other current status the status of the delivery is
`cancelled` afterwards and, the persistence call returning, the answer is 200
with the cancelled record. -/
theorem c3_cancel_by_owner (s : Store) (env : Env) (u : User) (id : String) (d : Delivery)
    (hg : s.get id = some d) (hrole : u.role = some "customer") (hown : d.customerId = u.userId) :
    (((cancelDelivery s env (some u) id).1
          = .json 400 (.error "Delivery cannot be cancelled at this stage") ∧
        (cancelDelivery s env (some u) id).2 = s) ↔
      d.status ∈ [.text "pickedUp", .text "inTransit", .text "delivered"]) ∧
    (d.status ∉ [.text "pickedUp", .text "inTransit", .text "delivered"] →
      (cancelDelivery s env (some u) id).2.statusOf id = some (.text "cancelled") ∧
      (env.persistOk = true →
        (cancelDelivery s env (some u) id).1
          = .json 200 (.message "Delivery cancelled successfully" (applyCancel env d)) ∧
        (applyCancel env d).status = .text "cancelled")) := by
  by_cases hs : d.status ∈ [.text "pickedUp", .text "inTransit", .text "delivered"]
  · rw [cancelDelivery_tooLate s env u id d hrole hg hown hs]
    exact ⟨⟨fun _ => hs, fun _ => ⟨rfl, rfl⟩⟩, fun h => absurd hs h⟩
  · rw [cancelDelivery_pass s env u id d hrole hg hown hs]
    refine ⟨⟨fun h => ?_, fun h => absurd h hs⟩, fun _ => ⟨?_, fun hp => ?_⟩⟩
    · exfalso
      have h1 := h.1
      cases hp : env.persistOk <;> simp [hp] at h1
    · simp [Store.statusOf, Store.get_modify_self, hg, applyCancel]
    · simp [hp, applyCancel]

/-- C3 at concrete inputs: the owner cancels the pending `d-1` of `storeCreated`. -/
theorem c3_cancel_by_owner_witness :
    (cancelDelivery storeCreated sampleEnv (some sampleCustomer) "d-1").2.statusOf "d-1" = some (.text "cancelled") :=
  ((c3_cancel_by_owner storeCreated sampleEnv sampleCustomer "d-1" sampleDelivery rfl rfl rfl).2
    (by decide)).1

/-! ## C4: what a cancellation leaves untouched -/

/-- C4. When a cancel request is answered with 200, the store is the store of
before with exactly the entry of `id` rewritten: the entries before and after
it are the same, and the new record differs from the old one in `status`
(now `cancelled`) and `updatedAt` (now the clock read) only. -/
theorem c4_cancel_frame (s : Store) (env : Env) (user : Option User) (id : String)
    (h : (cancelDelivery s env user id).1.code = some 200) :
    ∃ d d' pre post,
      s.entries = pre ++ (id, d) :: post ∧ (∀ e ∈ pre, e.1 ≠ id) ∧
      (cancelDelivery s env user id).2.entries = pre ++ (id, d') :: post ∧
      (cancelDelivery s env user id).1 = .json 200 (.message "Delivery cancelled successfully" d') ∧
      d'.status = .text "cancelled" ∧ d'.updatedAt = env.now ∧
      d'.id = d.id ∧ d'.customerId = d.customerId ∧ d'.driverId = d.driverId ∧
      d'.pickupAddress = d.pickupAddress ∧ d'.deliveryAddress = d.deliveryAddress ∧
      d'.customerName = d.customerName ∧ d'.customerPhone = d.customerPhone ∧
      d'.customerEmail = d.customerEmail ∧ d'.description = d.description ∧
      d'.weight = d.weight ∧ d'.items = d.items ∧ d'.type = d.type ∧ d'.price = d.price ∧
      d'.pickupDate = d.pickupDate ∧ d'.estimatedDeliveryDate = d.estimatedDeliveryDate ∧
      d'.actualDeliveryDate = d.actualDeliveryDate ∧ d'.trackingData = d.trackingData ∧
      d'.createdAt = d.createdAt := by
  cases user with
  | none => rw [cancelDelivery_noUser] at h; simp [Response.code] at h
  | some u =>
    by_cases hrole : u.role = some "customer"
    · cases hg : s.get id with
      | none => rw [cancelDelivery_missing s env u id hrole hg] at h; simp [Response.code] at h
      | some d =>
        by_cases ho : d.customerId = u.userId
        · by_cases hs : d.status ∈ [.text "pickedUp", .text "inTransit", .text "delivered"]
          · rw [cancelDelivery_tooLate s env u id d hrole hg ho hs] at h
            simp [Response.code] at h
          · rw [cancelDelivery_pass s env u id d hrole hg ho hs] at h ⊢
            have hp : env.persistOk = true := by
              cases hp : env.persistOk
              · simp [hp, Response.code] at h
              · rfl
            obtain ⟨pre, post, h1, h2, h3⟩ := modifyEntry_split s.entries id d (applyCancel env) hg
            refine ⟨d, applyCancel env d, pre, post, h1, h3, h2, by simp [hp], ?_⟩
            simp [applyCancel]
        · rw [cancelDelivery_notOwner s env u id d hrole hg ho] at h
          simp [Response.code] at h
    · rw [cancelDelivery_badRole s env u id hrole] at h
      simp [Response.code] at h

/-- C4 at concrete inputs: the owner cancels the pending `d-1` of `storeCreated`;
the record afterwards has the same price. -/
theorem c4_cancel_frame_witness :
    ∃ d d' : Delivery,
      storeCreated.get "d-1" = some d ∧
      (cancelDelivery storeCreated sampleEnv (some sampleCustomer) "d-1").2.get "d-1" = some d' ∧
      d'.status = .text "cancelled" ∧ d'.price = d.price := by
  obtain ⟨d, d', pre, post, h1, h2, h3, -, h5, -, -, -, -, -, -, -, -, -, -, -, -, -, h6, -⟩ :=
    c4_cancel_frame storeCreated sampleEnv (some sampleCustomer) "d-1" (by decide)
  have hl : ∀ (l : List (String × Delivery)) (x : Delivery), (∀ e ∈ l, e.1 ≠ "d-1") →
      lookupEntry (l ++ ("d-1", x) :: post) "d-1" = some x := by
    intro l x
    induction l with
    | nil => intro _; simp [lookupEntry]
    | cons e rest ih =>
      intro hne
      obtain ⟨k, y⟩ := e
      have hk : k ≠ "d-1" := hne (k, y) (by simp)
      have := ih (fun e he => hne e (by simp [he]))
      simpa [lookupEntry, hk] using this
  refine ⟨d, d', ?_, ?_, h5, h6⟩
  · unfold Store.get; rw [h1]; exact hl pre d h2
  · unfold Store.get; rw [h3]; exact hl pre d' h2

/-! ## C5: the price -/

theorem rawPrice_eq_specPrice (distanceValue : Nat) (type : String) (weight m : ℚ)
    (hm : tierMultiplier type = some m) :
    rawPrice distanceValue type weight = specPrice distanceValue weight m := by
  by_cases h1 : type = "express"
  · subst h1
    simp [tierMultiplier] at hm
    subst hm
    simp [rawPrice, specPrice]
    ring
  · by_cases h2 : type = "standard"
    · subst h2
      simp [tierMultiplier] at hm
      subst hm
      simp [rawPrice, specPrice]
      ring
    · by_cases h3 : type = "economy"
      · subst h3
        simp [tierMultiplier] at hm
        subst hm
        simp [rawPrice, specPrice]
        ring
      · simp [tierMultiplier, h1, h2, h3] at hm

theorem tierMultiplier_pos (type : String) (m : ℚ) (hm : tierMultiplier type = some m) :
    0 < m := by
  unfold tierMultiplier at hm
  split_ifs at hm <;> simp at hm <;> rw [← hm] <;> norm_num

theorem tierMultiplier_isSome (type : String) (h : type ∈ ["express", "standard", "economy"]) :
    ∃ m, tierMultiplier type = some m := by
  simp only [List.mem_cons, List.mem_singleton, List.not_mem_nil, or_false] at h
  rcases h with rfl | rfl | rfl
  · exact ⟨3 / 2, by simp [tierMultiplier]⟩
  · exact ⟨1, by simp [tierMultiplier]⟩
  · exact ⟨4 / 5, by simp [tierMultiplier]⟩

theorem roundedPrice_eq_round2 (x : ℚ) (hx : 0 ≤ x) : roundedPrice x = round2 x := by
  simp [roundedPrice, round2, mathRound, hx]

/-- C5. Every `POST /` that is answered with 201 returns and stores a record
whose price is `distance / 1000 * 2.0 * m + 0.5 * weight` rounded to two decimal
places, `m` being the tier multiplier (1.5 express, 1.0 standard, 0.8 economy)
and `distance` the metres the distance matrix returned. With 10000 metres and
4 kg the price is 22 for `standard` and 32 for `express`. -/
theorem c5_price :
    (∀ (s : Store) (env : Env) (user : Option User) (b : CreateBody),
      (createDelivery s env user b).1.code = some 201 →
      ∃ dm m rec, env.route = some dm ∧ tierMultiplier b.type = some m ∧
        (createDelivery s env user b).1
          = .json 201 (.message "Delivery created successfully" rec) ∧
        (createDelivery s env user b).2.get env.uuid = some rec ∧
        rec.price = round2 (specPrice dm.distance.value b.weight m)) ∧
    roundedPrice (rawPrice 10000 "standard" 4) = 22 ∧
    roundedPrice (rawPrice 10000 "express" 4) = 32 := by
  refine ⟨?_, ?_, ?_⟩
  · intro s env user b h
    obtain ⟨u, dm, rfl, hrole, hv, hr, hpers⟩ := createDelivery_created s env user b h
    have hvb := (validateCreate_nil_iff env b).mp hv
    obtain ⟨m, hm⟩ := tierMultiplier_isSome b.type hvb.2.2.2.2.2.2.2.1
    have hw : (1 / 10 : ℚ) ≤ b.weight := hvb.2.2.2.2.2.1
    have hmpos := tierMultiplier_pos b.type m hm
    have hnonneg : 0 ≤ specPrice dm.distance.value b.weight m := by
      unfold specPrice
      have hd : (0 : ℚ) ≤ (dm.distance.value : ℚ) := Nat.cast_nonneg _
      have h1 : (0 : ℚ) ≤ (dm.distance.value : ℚ) / 1000 * 2 * m := by positivity
      have h2 : (0 : ℚ) ≤ 1 / 2 * b.weight := by linarith
      linarith
    refine ⟨dm, m, newDelivery env u b dm, hr, hm, ?_, ?_, ?_⟩
    · rw [createDelivery_ok s env u b dm hrole hv hr hpers]
    · rw [createDelivery_ok s env u b dm hrole hv hr hpers]
      simp [Store.get_set]
    · show roundedPrice (rawPrice dm.distance.value b.type b.weight) = _
      rw [rawPrice_eq_specPrice _ _ _ m hm, roundedPrice_eq_round2 _ hnonneg]
  · simp [roundedPrice, rawPrice, mathRound]
    norm_num
  · simp [roundedPrice, rawPrice, mathRound]
    norm_num

/-- C5 at concrete inputs: the customer's request `sampleBody` (10000 metres,
4 kg, `standard`) on the empty store. -/
theorem c5_price_witness :
    ∃ dm m rec, sampleEnv.route = some dm ∧ tierMultiplier sampleBody.type = some m ∧
      (createDelivery Store.empty sampleEnv (some sampleCustomer) sampleBody).1
        = .json 201 (.message "Delivery created successfully" rec) ∧
      (createDelivery Store.empty sampleEnv (some sampleCustomer) sampleBody).2.get sampleEnv.uuid
        = some rec ∧
      rec.price = round2 (specPrice dm.distance.value sampleBody.weight m) :=
  c5_price.1 Store.empty sampleEnv (some sampleCustomer) sampleBody (by
    have h := step_create_sample
    simp only [step] at h
    rw [h]; rfl)

/-! ## C6: `actualDeliveryDate` -/

/-- C6, counterexample. Both directions of the equivalence fail in reachable
stores: in `storeDelivered` the delivery `d-1` is `delivered` and has no
`actualDeliveryDate` (the update carried no location); after an admin has moved
the `d-1` of `storeDeliveredAt` to `confirmed`, it has an `actualDeliveryDate`
and is not `delivered`. -/
theorem c6_actualDeliveryDate_counterexample :
    Reachable storeDelivered ∧
    (storeDelivered.get "d-1").map (·.status) = some (.text "delivered") ∧
    (storeDelivered.get "d-1").map (·.actualDeliveryDate) = some none ∧
    Reachable (step storeDeliveredAt sampleEnv (some sampleAdmin)
      (.updateStatus "d-1" ⟨.text "confirmed", .absent⟩)).2 ∧
    ((step storeDeliveredAt sampleEnv (some sampleAdmin)
      (.updateStatus "d-1" ⟨.text "confirmed", .absent⟩)).2.get "d-1").map (·.status) = some (.text "confirmed") ∧
    ((step storeDeliveredAt sampleEnv (some sampleAdmin)
      (.updateStatus "d-1" ⟨.text "confirmed", .absent⟩)).2.get "d-1").map (·.actualDeliveryDate)
        = some (some 1001) :=
  ⟨storeDelivered_reachable, by decide, by decide,
    Reachable.next _ _ _ storeDeliveredAt_reachable, by decide, by decide⟩

theorem pending_no_actualDeliveryDate (s : Store) (hs : Reachable s) :
    ∀ id d, s.get id = some d → d.status = .text "pending" → d.actualDeliveryDate = none := by
  induction hs with
  | init => intro id d h; simp [Store.get, Store.empty, lookupEntry] at h
  | next env user op _ ih =>
    intro id d' h hp
    rcases step_get_cases _ env user op id d' h with h0 | ⟨b, d, -, hv, -, rfl⟩ |
      ⟨b, d, -, -, rfl⟩ | ⟨d, -, -, rfl⟩ | ⟨b, u, dm, -, -, rfl⟩
    · exact ih id d' h0 hp
    · rw [applyStatus_status] at hp
      have := ((validateStatus_nil_iff b).mp hv).1
      rw [hp] at this
      exact absurd this (by decide)
    · simp [applyAssign] at hp
    · simp [applyCancel] at hp
    · rfl

/-- C6, amended. In every reachable store a delivery whose status is `pending`
has no `actualDeliveryDate`. A request changes the `actualDeliveryDate` found
under an id only when it is a `POST /` that builds the record (no
`actualDeliveryDate`, status `pending`) or a status update of that delivery
whose target is `delivered` (the status is then `delivered` and the date is the
clock read); every other request, a cancellation, a driver assignment or a
status update to another status included, leaves it as it is. -/
theorem c6_actualDeliveryDate (s : Store) (hs : Reachable s) (id : String) :
    (∀ d, s.get id = some d → d.status = .text "pending" → d.actualDeliveryDate = none) ∧
    (∀ env user op d', (step s env user op).2.get id = some d' →
      (∃ d, s.get id = some d ∧ d'.actualDeliveryDate = d.actualDeliveryDate) ∨
      (∃ b, op = .create b ∧ env.uuid = id ∧ d'.status = .text "pending" ∧
        d'.actualDeliveryDate = none) ∨
      (∃ b, op = .updateStatus id b ∧ b.status = .text "delivered" ∧ d'.status = .text "delivered" ∧
        d'.actualDeliveryDate = some env.now2)) := by
  refine ⟨pending_no_actualDeliveryDate s hs id, ?_⟩
  intro env user op d' h
  rcases step_get_cases _ env user op id d' h with h0 | ⟨b, d, hop, hv, hg, rfl⟩ |
    ⟨b, d, -, hg, rfl⟩ | ⟨d, -, hg, rfl⟩ | ⟨b, u, dm, hop, hid, rfl⟩
  · exact Or.inl ⟨d', h0, rfl⟩
  · rcases applyStatus_actualDeliveryDate env b d with h1 | ⟨h1, h2⟩
    · exact Or.inl ⟨d, hg, h1⟩
    · refine Or.inr (Or.inr ⟨b, hop, h1, ?_, h2⟩)
      rw [applyStatus_status, h1]
  · exact Or.inl ⟨d, hg, rfl⟩
  · exact Or.inl ⟨d, hg, rfl⟩
  · exact Or.inr (Or.inl ⟨b, hop, hid, rfl, rfl⟩)

/-- C6, amended, at a concrete input: the pending `d-1` of the reachable store
`storeCreated` has no `actualDeliveryDate`. -/
theorem c6_actualDeliveryDate_witness : sampleDelivery.actualDeliveryDate = none :=
  (c6_actualDeliveryDate storeCreated storeCreated_reachable "d-1").1 sampleDelivery rfl rfl

/-! ## C7: driver assignment -/

/-- C7. For an existing delivery, whatever its status, and a non-empty
`driverId`, the driver assignment of an admin leaves under that id the record
with `driverId` the given driver and status `confirmed` (the other fields but
`updatedAt` as they were), and is answered, the persistence call returning,
with 200 and that record. -/
theorem c7_assignDriver (s : Store) (env : Env) (u : User) (id : String) (b : AssignBody)
    (d : Delivery) (hrole : u.role = some "admin") (hg : s.get id = some d)
    (hne : b.driverId ≠ "") :
    (assignDriver s env (some u) id b).2.get id
      = some { d with driverId := some b.driverId, status := .text "confirmed", updatedAt := env.now } ∧
    (env.persistOk = true →
      (assignDriver s env (some u) id b).1
        = .json 200 (.message "Driver assigned successfully"
            { d with driverId := some b.driverId, status := .text "confirmed", updatedAt := env.now })) := by
  rw [assignDriver_pass s env u id b d hrole hne hg]
  refine ⟨?_, fun hp => ?_⟩
  · simp [Store.get_modify_self, hg, applyAssign]
  · simp [hp, applyAssign]

/-- C7 at concrete inputs: an admin assigns `drv-1` to the delivered `d-1` of
`storeDeliveredAt`. -/
theorem c7_assignDriver_witness :
    ((assignDriver storeDeliveredAt sampleEnv (some sampleAdmin) "d-1" ⟨"drv-1"⟩).2.get "d-1").map
        (fun d => (d.driverId, d.status)) = some (some "drv-1", .text "confirmed") := by
  have h := (c7_assignDriver storeDeliveredAt sampleEnv sampleAdmin "d-1" ⟨"drv-1"⟩
    _ rfl rfl (by decide)).1
  rw [h]; rfl

/-! ## C8: the role gate -/

/-- C8. A request without `req.user` is answered 401 by the gate of `POST /`,
`PATCH /:id/status`, `PATCH /:id/assign`, `PATCH /:id/cancel` and
`GET /stats/overview`. With a user, the gate answers 403 exactly when the role
is not `customer` (create, cancel), not `driver` or `admin` (status update),
not `admin` (assign, stats). The gate's answer comes with the store unchanged;
with a permitted role the answer is the handler's own, never one of the gate. -/
theorem c8_role_gate (s : Store) (env : Env) :
    (∀ b, createDelivery s env none b = (.json 401 (.error "Authentication required"), s)) ∧
    (∀ id, cancelDelivery s env none id = (.json 401 (.error "Authentication required"), s)) ∧
    (∀ id b, updateStatus s env none id b
      = (.json 401 (.error "Authentication required"), s)) ∧
    (∀ id b, assignDriver s env none id b
      = (.json 401 (.error "Authentication required"), s)) ∧
    statsOverview s none = (.json 401 (.error "Authentication required"), s) ∧
    (∀ (u : User) b, u.role ≠ some "customer" →
      createDelivery s env (some u) b = (.json 403 (.error "Insufficient permissions"), s)) ∧
    (∀ (u : User) id, u.role ≠ some "customer" →
      cancelDelivery s env (some u) id = (.json 403 (.error "Insufficient permissions"), s)) ∧
    (∀ (u : User) id b, u.role ≠ some "driver" → u.role ≠ some "admin" →
      updateStatus s env (some u) id b = (.json 403 (.error "Insufficient permissions"), s)) ∧
    (∀ (u : User) id b, u.role ≠ some "admin" →
      assignDriver s env (some u) id b = (.json 403 (.error "Insufficient permissions"), s)) ∧
    (∀ (u : User), u.role ≠ some "admin" →
      statsOverview s (some u) = (.json 403 (.error "Insufficient permissions"), s)) ∧
    (∀ (u : User) b, u.role = some "customer" → (createDelivery s env (some u) b).1 ∉ gateAnswers) ∧
    (∀ (u : User) id, u.role = some "customer" → (cancelDelivery s env (some u) id).1 ∉ gateAnswers) ∧
    (∀ (u : User) id b, u.role = some "driver" ∨ u.role = some "admin" →
      (updateStatus s env (some u) id b).1 ∉ gateAnswers) ∧
    (∀ (u : User) id b, u.role = some "admin" → (assignDriver s env (some u) id b).1 ∉ gateAnswers) ∧
    (∀ (u : User), u.role = some "admin" →
      statsOverview s (some u) = (.json 200 (.stats (overview s.values)), s)) := by
  refine ⟨fun b => createDelivery_noUser s env b, fun id => cancelDelivery_noUser s env id,
    fun id b => updateStatus_noUser s env id b, fun id b => assignDriver_noUser s env id b,
    statsOverview_noUser s, fun u b h => createDelivery_badRole s env u b h,
    fun u id h => cancelDelivery_badRole s env u id h, ?_,
    fun u id b h => assignDriver_badRole s env u id b h,
    fun u h => statsOverview_badRole s u h,
    fun u b h => createDelivery_past_gate s env u b h,
    fun u id h => cancelDelivery_past_gate s env u id h, ?_,
    fun u id b h => assignDriver_past_gate s env u id b h,
    fun u h => statsOverview_pass s u h⟩
  · intro u id b h1 h2
    exact updateStatus_badRole s env u id b (by simp [h1, h2])
  · intro u id b h
    exact updateStatus_past_gate s env u id b (by simpa using h)

/-- C8 at concrete inputs: a driver's cancel request on `storeCreated` is
answered 403 by the gate and the store is as before. -/
theorem c8_role_gate_witness :
    cancelDelivery storeCreated sampleEnv (some sampleDriver) "d-1"
      = (.json 403 (.error "Insufficient permissions"), storeCreated) :=
  (c8_role_gate storeCreated sampleEnv).2.2.2.2.2.2.1 sampleDriver "d-1" (by decide)

/-! ## C9: record-level authorization -/

theorem getDelivery_missing (s : Store) (user : Option User) (id : String)
    (hg : s.get id = none) :
    getDelivery s user id = (.json 404 (.error "Delivery not found"), s) := by
  simp only [getDelivery, hg]

/-- C9. The requests are those that have passed the role gate and, for the
status update, the validation of the body. When `id` is not in the store, get,
status update and cancel answer 404. When `id` holds the record `d`: get and
cancel answer 403 to a customer who is not `d.customerId`; get and status
update answer 403 to a driver who is not `d.driverId` (an unassigned record
included); in every remaining case get answers 200 with the record `d`. The
store is unchanged in all these cases. -/
theorem c9_record_authorization (s : Store) (env : Env) (id : String) :
    (s.get id = none →
      (∀ user, getDelivery s user id = (.json 404 (.error "Delivery not found"), s)) ∧
      (∀ (u : User) b, u.role = some "driver" ∨ u.role = some "admin" → validateStatus b = [] →
        updateStatus s env (some u) id b = (.json 404 (.error "Delivery not found"), s)) ∧
      (∀ (u : User), u.role = some "customer" →
        cancelDelivery s env (some u) id = (.json 404 (.error "Delivery not found"), s))) ∧
    (∀ d, s.get id = some d →
      (∀ (u : User), u.role = some "customer" → d.customerId ≠ u.userId →
        getDelivery s (some u) id = (.json 403 (.error "Access denied"), s) ∧
        cancelDelivery s env (some u) id = (.json 403 (.error "Access denied"), s)) ∧
      (∀ (u : User), u.role = some "driver" → d.driverId ≠ some u.userId →
        getDelivery s (some u) id = (.json 403 (.error "Access denied"), s) ∧
        ∀ b, validateStatus b = [] →
          updateStatus s env (some u) id b = (.json 403 (.error "Access denied"), s)) ∧
      (∀ (u : User), ¬ (u.role = some "customer" ∧ d.customerId ≠ u.userId) →
        ¬ (u.role = some "driver" ∧ d.driverId ≠ some u.userId) →
        getDelivery s (some u) id = (.json 200 (.delivery d), s))) := by
  refine ⟨fun hg => ⟨fun user => getDelivery_missing s user id hg, ?_, ?_⟩,
    fun d hg => ⟨?_, ?_, ?_⟩⟩
  · intro u b hrole hv
    exact updateStatus_missing s env u id b (by simpa using hrole) hv hg
  · intro u hrole
    exact cancelDelivery_missing s env u id hrole hg
  · intro u hrole ho
    refine ⟨?_, cancelDelivery_notOwner s env u id d hrole hg ho⟩
    simp only [getDelivery, hg, if_pos (And.intro hrole ho)]
  · intro u hrole hd
    refine ⟨?_, fun b hv =>
      updateStatus_notAssigned s env u id b d (by simp [hrole]) hv hg ⟨hrole, hd⟩⟩
    have hc : ¬ (u.role = some "customer" ∧ d.customerId ≠ u.userId) := by
      rw [hrole]; simp
    simp only [getDelivery, hg, if_neg hc, if_pos (And.intro hrole hd)]
  · intro u hc hd
    simp only [getDelivery, hg, if_neg hc, if_neg hd]

/-- C9 at concrete inputs: another customer asks for the `d-1` of `storeCreated`. -/
theorem c9_record_authorization_witness :
    getDelivery storeCreated (some otherCustomer) "d-1"
        = (.json 403 (.error "Access denied"), storeCreated) ∧
    cancelDelivery storeCreated sampleEnv (some otherCustomer) "d-1"
        = (.json 403 (.error "Access denied"), storeCreated) :=
  ((c9_record_authorization storeCreated sampleEnv "d-1").2 sampleDelivery rfl).1
    otherCustomer rfl (by decide)

/-! ## C10: what `GET /` counts -/

theorem roleFilter_eq (u : User) (ds : List Delivery)
    (hrole : u.role ∈ [some "customer", some "driver", some "admin"]) :
    roleFilter u ds = ds.filter (visibleTo u) := by
  simp only [List.mem_cons, List.mem_singleton, List.not_mem_nil, or_false] at hrole
  unfold roleFilter visibleTo
  rcases hrole with h | h | h
  · simp [h]
  · simp [h]
  · simp [h]

theorem statusFilter_eq (f : Option String) (ds : List Delivery) :
    statusFilter f ds = ds.filter (fun d => matchesFilter f d.status) := by
  cases f with
  | none => simp [statusFilter, matchesFilter]
  | some v =>
    by_cases hv : v = ""
    · simp [statusFilter, matchesFilter, truthy, hv]
    · simp [statusFilter, matchesFilter, truthy, hv]

theorem typeFilter_eq (f : Option String) (ds : List Delivery) :
    typeFilter f ds = ds.filter (fun d => matchesFilter f (.text d.type)) := by
  cases f with
  | none => simp [typeFilter, matchesFilter]
  | some v =>
    by_cases hv : v = ""
    · simp [typeFilter, matchesFilter, truthy, hv]
    · simp [typeFilter, matchesFilter, truthy, hv]

theorem mem_jsSlice {α : Type} (xs : List α) (start stop : Int) (x : α)
    (h : x ∈ jsSlice xs start stop) : x ∈ xs := by
  unfold jsSlice at h
  exact List.mem_of_mem_drop (List.mem_of_mem_take h)

/-- For a requester whose role is customer, driver or admin, the list `GET /`
counts in `total` is a rearrangement of the stored records that are visible to
the requester and match the status filter and the type filter when each is
supplied (present and not empty), and every record on the page is such a
record. -/
theorem list_visibility_of_role (s : Store) (u : User) (q : ListQuery)
    (hrole : u.role ∈ [some "customer", some "driver", some "admin"]) :
    (userDeliveries s u q).Perm
      (s.values.filter (fun d =>
        visibleTo u d && matchesFilter q.status d.status &&
          matchesFilter q.type (.text d.type))) ∧
    ∃ items pag, listDeliveries s (some u) q = (.json 200 (.list items pag), s) ∧
      pag.total = (s.values.filter (fun d =>
        visibleTo u d && matchesFilter q.status d.status &&
          matchesFilter q.type (.text d.type))).length ∧
      ∀ d ∈ items, d ∈ s.values ∧ visibleTo u d = true ∧
        matchesFilter q.status d.status = true ∧
        matchesFilter q.type (.text d.type) = true := by
  have hfil : typeFilter q.type (statusFilter q.status (roleFilter u s.values))
      = s.values.filter (fun d =>
        visibleTo u d && matchesFilter q.status d.status &&
          matchesFilter q.type (.text d.type)) := by
    rw [roleFilter_eq u _ hrole, statusFilter_eq, typeFilter_eq, List.filter_filter,
      List.filter_filter]
    congr 1
    funext d
    cases visibleTo u d <;> cases matchesFilter q.status d.status <;>
      cases matchesFilter q.type (.text d.type) <;> rfl
  have hperm : (userDeliveries s u q).Perm
      (s.values.filter (fun d =>
        visibleTo u d && matchesFilter q.status d.status &&
          matchesFilter q.type (.text d.type))) := by
    unfold userDeliveries sortNewestFirst
    rw [hfil]
    exact List.perm_insertionSort _ _
  refine ⟨hperm, _, _, rfl, hperm.length_eq, ?_⟩
  intro d hd
  have hmem := hperm.mem_iff.mp (mem_jsSlice _ _ _ d hd)
  simp only [List.mem_filter, Bool.and_eq_true] at hmem
  exact ⟨hmem.1, hmem.2.1.1, hmem.2.1.2, hmem.2.2⟩

/-- C10, the code at the failing input. The requester holds a reset token of
`POST /forgot-password`: `req.user` is `{ userId: 'u-2', email }` without role.
The delivery `d-1` of `storeCreated` belongs to customer `u-1` and has no
driver, so it is not visible to `u-2`; `GET /` answers 200 and returns it. -/
theorem c10_list_returns_invisible :
    resetTokenUser.role = none ∧
    sampleDelivery.customerId ≠ resetTokenUser.userId ∧
    sampleDelivery.driverId ≠ some resetTokenUser.userId ∧
    visibleTo resetTokenUser sampleDelivery = false ∧
    storeCreated.values = [sampleDelivery] ∧
    (listDeliveries storeCreated (some resetTokenUser) ⟨none, none, none, none⟩).1.code
      = some 200 ∧
    (listDeliveries storeCreated (some resetTokenUser) ⟨none, none, none, none⟩).1.items
      = [sampleDelivery] ∧
    userDeliveries storeCreated resetTokenUser ⟨none, none, none, none⟩ = [sampleDelivery] :=
  ⟨rfl, by decide, by decide, by decide, rfl, rfl, by rfl, by rfl⟩

/-! ## C11: pagination -/

theorem jsSlice_window {α : Type} (xs : List α) (a l : Nat) :
    jsSlice xs (a : Int) ((a : Int) + (l : Int)) = (xs.drop a).take l := by
  unfold jsSlice
  have h1 : ¬ ((a : Int) < 0) := by omega
  have h2 : ¬ ((a : Int) + (l : Int) < 0) := by omega
  simp only [if_neg h1, if_neg h2]
  by_cases ha : a ≤ xs.length
  · have hk : (min (a : Int) (xs.length : Int)).toNat = a := by omega
    rw [hk]
    by_cases hb : a + l ≤ xs.length
    · have hf : (min ((a : Int) + (l : Int)) (xs.length : Int) - min (a : Int) (xs.length : Int)).toNat
          = l := by omega
      rw [hf]
    · have hf : (min ((a : Int) + (l : Int)) (xs.length : Int) - min (a : Int) (xs.length : Int)).toNat
          = xs.length - a := by omega
      rw [hf, List.take_of_length_le (by simp), List.take_of_length_le (by simp; omega)]
  · have hk : (min (a : Int) (xs.length : Int)).toNat = xs.length := by omega
    rw [hk, List.drop_eq_nil_of_le (Nat.le_refl _), List.drop_eq_nil_of_le (by omega)]
    simp

theorem ceil_div_eq (t l : Nat) (hl : 1 ≤ l) :
    ⌈(t : ℚ) / ((l : Int) : ℚ)⌉ = (((t + l - 1) / l : Nat) : Int) := by
  have hlq : (0 : ℚ) < (l : ℚ) := by exact_mod_cast hl
  have h1 : (t + l - 1) / l * l ≤ t + l - 1 := Nat.div_mul_le_self _ _
  have h2 : t + l - 1 < ((t + l - 1) / l + 1) * l :=
    (Nat.div_lt_iff_lt_mul (by omega)).mp (Nat.lt_succ_self _)
  generalize (t + l - 1) / l = n at h1 h2 ⊢
  have h5 : (n + 1) * l = n * l + l := by ring
  have h3 : n * l < t + l := by omega
  have h4 : t ≤ n * l := by omega
  have h3q : ((n * l : Nat) : ℚ) < ((t + l : Nat) : ℚ) := by exact_mod_cast h3
  have h4q : ((t : Nat) : ℚ) ≤ ((n * l : Nat) : ℚ) := by exact_mod_cast h4
  push_cast at h3q h4q
  rw [Int.ceil_eq_iff, Int.cast_natCast, Int.cast_natCast]
  constructor
  · rw [lt_div_iff₀ hlq]
    linarith
  · rw [div_le_iff₀ hlq]
    linarith

theorem listDeliveries_window (s : Store) (u : User) (q : ListQuery) (page limit : Nat)
    (hpage : q.page.getD 1 = (page : Int)) (hlimit : q.limit.getD 10 = (limit : Int))
    (hp : 1 ≤ page) (hl : 1 ≤ limit) :
    listDeliveries s (some u) q
      = (.json 200 (.list (((userDeliveries s u q).drop ((page - 1) * limit)).take limit)
          { page := page, limit := limit, total := (userDeliveries s u q).length,
            pages := some ((((userDeliveries s u q).length + limit - 1) / limit : Nat) : Int) }),
        s) := by
  have hskip : ((page : Int) - 1) * (limit : Int) = (((page - 1) * limit : Nat) : Int) := by
    push_cast [Nat.cast_sub hp]; ring
  have hl0 : ¬ ((limit : Int) = 0) := by omega
  simp only [listDeliveries, hpage, hlimit, hskip, jsSlice_window, pageCount, if_neg hl0,
    ceil_div_eq _ _ hl]

theorem pagesUpTo_eq_take (s : Store) (u : User) (q : ListQuery) (limit : Nat)
    (hlimit : q.limit.getD 10 = (limit : Int)) (hl : 1 ≤ limit) (n : Nat) :
    pagesUpTo s u q n = (userDeliveries s u q).take (n * limit) := by
  induction n with
  | zero => simp [pagesUpTo]
  | succ n ih =>
    have hw := listDeliveries_window s u { q with page := some ((n : Int) + 1) } (n + 1) limit
      (by simp) hlimit (by omega) hl
    have hall : userDeliveries s u { q with page := some ((n : Int) + 1) } = userDeliveries s u q :=
      rfl
    rw [hall] at hw
    simp only [pagesUpTo, hw, ih, Response.items, Nat.add_sub_cancel]
    rw [Nat.succ_mul, List.take_add]

/-- C11. For a list request whose page and page size (1 and 10 when omitted)
are at least 1, the answer is 200 with the items at offsets
`(page-1)*pageSize` to `(page-1)*pageSize + pageSize - 1` of the filtered,
sorted list, hence at most `pageSize` of them; `total` is the length of that
list and `pages` is `ceil(total / pageSize)`; the pages 1 to `pages`, one after
the other, are the whole list. -/
theorem c11_pagination (s : Store) (u : User) (q : ListQuery) (page limit : Nat)
    (hpage : q.page.getD 1 = (page : Int)) (hlimit : q.limit.getD 10 = (limit : Int))
    (hp : 1 ≤ page) (hl : 1 ≤ limit) :
    ∃ items pag, listDeliveries s (some u) q = (.json 200 (.list items pag), s) ∧
      items = ((userDeliveries s u q).drop ((page - 1) * limit)).take limit ∧
      (∀ i, items[i]? = if i < limit then (userDeliveries s u q)[(page - 1) * limit + i]? else none) ∧
      items.length ≤ limit ∧
      pag.page = page ∧ pag.limit = limit ∧
      pag.total = (userDeliveries s u q).length ∧
      pag.pages = some ((((userDeliveries s u q).length + limit - 1) / limit : Nat) : Int) ∧
      ⌈((userDeliveries s u q).length : ℚ) / (limit : ℚ)⌉
        = ((((userDeliveries s u q).length + limit - 1) / limit : Nat) : Int) ∧
      pagesUpTo s u q (((userDeliveries s u q).length + limit - 1) / limit)
        = userDeliveries s u q := by
  refine ⟨_, _, listDeliveries_window s u q page limit hpage hlimit hp hl, rfl, ?_, ?_, rfl, rfl,
    rfl, rfl, ?_, ?_⟩
  · intro i
    rw [List.getElem?_take, List.getElem?_drop]
  · exact List.length_take_le _ _
  · have h := ceil_div_eq (userDeliveries s u q).length limit hl
    rw [Int.cast_natCast] at h
    exact h
  · rw [pagesUpTo_eq_take s u q limit hlimit hl]
    apply List.take_of_length_le
    have h2 : (userDeliveries s u q).length + limit - 1
        < (((userDeliveries s u q).length + limit - 1) / limit + 1) * limit :=
      (Nat.div_lt_iff_lt_mul (by omega)).mp (Nat.lt_succ_self _)
    have h3 : (((userDeliveries s u q).length + limit - 1) / limit + 1) * limit
        = ((userDeliveries s u q).length + limit - 1) / limit * limit + limit := by ring
    omega

/-- C11 at concrete inputs: an admin lists `storeCreated` with the default page
and page size. -/
theorem c11_pagination_witness :
    ∃ items pag,
      listDeliveries storeCreated (some sampleAdmin) ⟨none, none, none, none⟩
        = (.json 200 (.list items pag), storeCreated) ∧
      items.length ≤ 10 ∧ pag.page = 1 ∧ pag.limit = 10 ∧
      pagesUpTo storeCreated sampleAdmin ⟨none, none, none, none⟩
          (((userDeliveries storeCreated sampleAdmin ⟨none, none, none, none⟩).length + 10 - 1) / 10)
        = userDeliveries storeCreated sampleAdmin ⟨none, none, none, none⟩ := by
  obtain ⟨items, pag, h1, -, -, h4, h5, h6, -, -, -, h10⟩ :=
    c11_pagination storeCreated sampleAdmin ⟨none, none, none, none⟩ 1 10 rfl rfl
      (by decide) (by decide)
  exact ⟨items, pag, h1, h4, h5, h6, h10⟩

/-! ## C12: the order of the list -/

theorem jsSlice_sublist {α : Type} (xs : List α) (start stop : Int) :
    (jsSlice xs start stop).Sublist xs := by
  unfold jsSlice
  exact (List.take_sublist _ _).trans (List.drop_sublist _ _)

theorem sortNewestFirst_pairwise (ds : List Delivery) :
    (sortNewestFirst ds).Pairwise (fun a b => b.createdAt ≤ a.createdAt) := by
  haveI : IsTotal Delivery (fun a b => b.createdAt ≤ a.createdAt) :=
    ⟨fun a b => Nat.le_total b.createdAt a.createdAt⟩
  haveI : IsTrans Delivery (fun a b => b.createdAt ≤ a.createdAt) :=
    ⟨fun _ _ _ hab hbc => Nat.le_trans hbc hab⟩
  exact List.sorted_insertionSort (fun a b : Delivery => b.createdAt ≤ a.createdAt) ds

/-- C12. The list `GET /` sorts is a rearrangement of the filtered records in
which every record has a `createdAt` at least that of every record after it;
the page it returns is a part of that list in the same order, so each returned
record has a `createdAt` at least that of the next one. -/
theorem c12_list_order (s : Store) (u : User) (q : ListQuery) :
    (userDeliveries s u q).Perm
      (typeFilter q.type (statusFilter q.status (roleFilter u s.values))) ∧
    (userDeliveries s u q).Pairwise (fun a b => b.createdAt ≤ a.createdAt) ∧
    ∃ items pag, listDeliveries s (some u) q = (.json 200 (.list items pag), s) ∧
      items.Sublist (userDeliveries s u q) ∧
      items.Pairwise (fun a b => b.createdAt ≤ a.createdAt) ∧
      items.Chain' (fun a b => b.createdAt ≤ a.createdAt) := by
  have hsorted := sortNewestFirst_pairwise
    (typeFilter q.type (statusFilter q.status (roleFilter u s.values)))
  have hsub := jsSlice_sublist (userDeliveries s u q)
    ((q.page.getD 1 - 1) * q.limit.getD 10)
    ((q.page.getD 1 - 1) * q.limit.getD 10 + q.limit.getD 10)
  refine ⟨List.perm_insertionSort _ _, hsorted, _, _, rfl, hsub, ?_, ?_⟩
  · exact List.Pairwise.sublist hsub hsorted
  · exact List.Pairwise.chain' (List.Pairwise.sublist hsub hsorted)

/-! ## C13: revenue -/

theorem foldl_price (ds : List Delivery) (acc : ℚ) :
    ds.foldl (fun sum d => sum + d.price) acc = acc + (ds.map (·.price)).sum := by
  induction ds generalizing acc with
  | nil => simp
  | cons d rest ih => simp [List.foldl_cons, ih, add_assoc]

theorem totalRevenue_eq_sum (ds : List Delivery) :
    totalRevenue ds = ((ds.filter (fun d => d.status = .text "delivered")).map (·.price)).sum := by
  unfold totalRevenue
  rw [foldl_price]
  simp

theorem setEntry_of_absent (l : List (String × Delivery)) (id : String) (d : Delivery)
    (h : lookupEntry l id = none) : setEntry l id d = l ++ [(id, d)] := by
  induction l with
  | nil => rfl
  | cons e rest ih =>
    obtain ⟨k, x⟩ := e
    by_cases hk : k = id
    · simp [lookupEntry, hk] at h
    · simp only [lookupEntry, hk, if_false] at h
      simp [setEntry, hk, ih h]

theorem Store.values_set_of_absent (s : Store) (id : String) (d : Delivery)
    (h : s.get id = none) : (s.set id d).values = s.values ++ [d] := by
  unfold Store.values Store.set
  rw [setEntry_of_absent s.entries id d h]
  simp

/-- C13. For an admin, `GET /stats/overview` answers 200 with `totalRevenue`
the sum of `price` over the stored records whose status is `delivered` and over
no other record. Adding to the store, under a new id, a record whose status is
not `delivered` leaves `totalRevenue` as it is, and a store without a delivered
record has `totalRevenue` 0. -/
theorem c13_total_revenue (s : Store) (u : User) (hrole : u.role = some "admin") :
    (∃ st, statsOverview s (some u) = (.json 200 (.stats st), s) ∧
      st.totalRevenue
        = ((s.values.filter (fun d => d.status = .text "delivered")).map (·.price)).sum) ∧
    (∀ id d, s.get id = none → d.status ≠ .text "delivered" →
      (overview (s.set id d).values).totalRevenue = (overview s.values).totalRevenue) ∧
    ((∀ d ∈ s.values, d.status ≠ .text "delivered") → (overview s.values).totalRevenue = 0) := by
  refine ⟨⟨_, statsOverview_pass s u hrole, totalRevenue_eq_sum _⟩, ?_, ?_⟩
  · intro id d hg hd
    show totalRevenue _ = totalRevenue _
    rw [totalRevenue_eq_sum, totalRevenue_eq_sum, Store.values_set_of_absent s id d hg]
    simp [List.filter_append, hd]
  · intro h
    show totalRevenue _ = 0
    rw [totalRevenue_eq_sum]
    have : s.values.filter (fun d => d.status = .text "delivered") = [] := by
      rw [List.filter_eq_nil_iff]
      intro d hd
      simpa using h d hd
    rw [this]
    rfl

/-- C13 at concrete inputs: a pending record of price 100 is added to
`storeDeliveredAt` under the new id `d-2`. -/
theorem c13_total_revenue_witness :
    (overview (storeDeliveredAt.set "d-2"
        { sampleDelivery with id := "d-2", price := 100 }).values).totalRevenue
      = (overview storeDeliveredAt.values).totalRevenue :=
  (c13_total_revenue storeDeliveredAt sampleAdmin rfl).2.1 "d-2"
    { sampleDelivery with id := "d-2", price := 100 } (by decide) (by decide)

/-! ## C14: counts -/

theorem mem_modifyEntry (l : List (String × Delivery)) (id : String) (f : Delivery → Delivery)
    (e : String × Delivery) (h : e ∈ modifyEntry l id f) :
    e ∈ l ∨ ∃ d, (id, d) ∈ l ∧ e = (id, f d) := by
  induction l with
  | nil => simp [modifyEntry] at h
  | cons x rest ih =>
    obtain ⟨k, d⟩ := x
    by_cases hk : k = id
    · subst hk
      simp only [modifyEntry, if_true, List.mem_cons] at h
      rcases h with h | h
      · exact Or.inr ⟨d, by simp, h⟩
      · exact Or.inl (by simp [h])
    · simp only [modifyEntry, hk, if_false, List.mem_cons] at h
      rcases h with h | h
      · exact Or.inl (by simp [h])
      · rcases ih h with h' | ⟨d', hd', he⟩
        · exact Or.inl (by simp [h'])
        · exact Or.inr ⟨d', by simp [hd'], he⟩

theorem mem_setEntry (l : List (String × Delivery)) (id : String) (d : Delivery)
    (e : String × Delivery) (h : e ∈ setEntry l id d) : e ∈ l ∨ e = (id, d) := by
  induction l with
  | nil => simpa [setEntry] using h
  | cons x rest ih =>
    obtain ⟨k, y⟩ := x
    by_cases hk : k = id
    · subst hk
      simp only [setEntry, if_true, List.mem_cons] at h
      rcases h with h | h
      · exact Or.inr h
      · exact Or.inl (by simp [h])
    · simp only [setEntry, hk, if_false, List.mem_cons] at h
      rcases h with h | h
      · exact Or.inl (by simp [h])
      · rcases ih h with h' | h'
        · exact Or.inl (by simp [h'])
        · exact Or.inr h'

/-- Every entry of the store after a request is an entry of the store before
it, or an entry rewritten by one of the three mutating handlers, or the record
`POST /` has built. -/
theorem step_entry_cases (s : Store) (env : Env) (user : Option User) (op : Op)
    (e : String × Delivery) (h : e ∈ (step s env user op).2.entries) :
    e ∈ s.entries ∨
    (∃ b d, validateStatus b = [] ∧ (e.1, d) ∈ s.entries ∧ e.2 = applyStatus env b d) ∨
    (∃ b d, (e.1, d) ∈ s.entries ∧ e.2 = applyAssign env b d) ∨
    (∃ d, (e.1, d) ∈ s.entries ∧ e.2 = applyCancel env d) ∨
    (∃ b u dm, e = (env.uuid, newDelivery env u b dm)) := by
  cases op with
  | create b =>
    simp only [step] at h
    rcases createDelivery_store s env user b with hs | ⟨u, dm, _, _, _, _, hs⟩
    · left; rw [hs] at h; exact h
    · rw [hs] at h
      rcases mem_setEntry _ _ _ e h with h' | h'
      · exact Or.inl h'
      · exact Or.inr (Or.inr (Or.inr (Or.inr ⟨b, u, dm, h'⟩)))
  | list q => left; simpa [step, listDeliveries_store] using h
  | get j => left; simpa [step, getDelivery_store] using h
  | stats => left; simpa [step, statsOverview_store] using h
  | updateStatus j b =>
    simp only [step] at h
    rcases updateStatus_store s env user j b with hs | ⟨_, hv, _, hs⟩
    · left; rw [hs] at h; exact h
    · rw [hs] at h
      rcases mem_modifyEntry _ _ _ e h with h' | ⟨d, hd, rfl⟩
      · exact Or.inl h'
      · exact Or.inr (Or.inl ⟨b, d, hv, hd, rfl⟩)
  | assignDriver j b =>
    simp only [step] at h
    rcases assignDriver_store s env user j b with hs | ⟨_, _, _, hs⟩
    · left; rw [hs] at h; exact h
    · rw [hs] at h
      rcases mem_modifyEntry _ _ _ e h with h' | ⟨d, hd, rfl⟩
      · exact Or.inl h'
      · exact Or.inr (Or.inr (Or.inl ⟨b, d, hd, rfl⟩))
  | cancel j =>
    simp only [step] at h
    rcases cancelDelivery_store s env user j with hs | ⟨_, _, _, _, _, _, _, hs⟩
    · left; rw [hs] at h; exact h
    · rw [hs] at h
      rcases mem_modifyEntry _ _ _ e h with h' | ⟨d, hd, rfl⟩
      · exact Or.inl h'
      · exact Or.inr (Or.inr (Or.inr (Or.inl ⟨d, hd, rfl⟩)))

/-- In a reachable store every status is `pending`, `confirmed` or `cancelled`
as a string, or a value that passed the check of line 198. -/
theorem reachable_entries_status (s : Store) (hs : Reachable s) :
    ∀ e ∈ s.entries,
      e.2.status ∈ [.text "pending", .text "confirmed", .text "cancelled"] ∨
        statusIsIn e.2.status = true := by
  induction hs with
  | init => intro e he; simp [Store.empty] at he
  | next env user op _ ih =>
    intro e he
    rcases step_entry_cases _ env user op e he with h | ⟨b, d, hv, _, h⟩ | ⟨b, d, _, h⟩ |
      ⟨d, _, h⟩ | ⟨b, u, dm, h⟩
    · exact ih e h
    · right
      rw [h, applyStatus_status]
      exact ((validateStatus_nil_iff b).mp hv).1
    · left; rw [h]; simp [applyAssign]
    · left; rw [h]; simp [applyCancel]
    · left; rw [h]; simp [newDelivery]

theorem counts_sum (ds : List Delivery)
    (h : ∀ d ∈ ds, d.status ∈
      [.text "pending", .text "confirmed", .text "pickedUp", .text "inTransit",
        .text "delivered", .text "cancelled"]) :
    countStatus ds "pending" + countStatus ds "confirmed" + countStatus ds "pickedUp" +
      countStatus ds "inTransit" + countStatus ds "delivered" + countStatus ds "cancelled"
      = ds.length := by
  induction ds with
  | nil => rfl
  | cons d rest ih =>
    have hrest := ih (fun x hx => h x (by simp [hx]))
    have hd := h d (by simp)
    simp only [List.mem_cons, List.mem_singleton, List.not_mem_nil, or_false] at hd
    unfold countStatus at hrest ⊢
    rcases hd with hd | hd | hd | hd | hd | hd <;>
      simp [List.filter_cons, hd] <;> omega

/-- For an admin, `GET /stats/overview` answers 200 with `total` the number of
stored records and, for each of the six status names, the number of stored
records whose status is that string; when every stored status is one of the
six strings, the six counts add up to `total`. -/
theorem overview_counts (s : Store) (u : User) (hrole : u.role = some "admin") :
    ∃ st, statsOverview s (some u) = (.json 200 (.stats st), s) ∧
      st.total = s.values.length ∧
      st.pending = (s.values.filter (fun d => d.status = .text "pending")).length ∧
      st.confirmed = (s.values.filter (fun d => d.status = .text "confirmed")).length ∧
      st.pickedUp = (s.values.filter (fun d => d.status = .text "pickedUp")).length ∧
      st.inTransit = (s.values.filter (fun d => d.status = .text "inTransit")).length ∧
      st.delivered = (s.values.filter (fun d => d.status = .text "delivered")).length ∧
      st.cancelled = (s.values.filter (fun d => d.status = .text "cancelled")).length ∧
      ((∀ d ∈ s.values, d.status ∈
          [.text "pending", .text "confirmed", .text "pickedUp", .text "inTransit",
            .text "delivered", .text "cancelled"]) →
        st.pending + st.confirmed + st.pickedUp + st.inTransit + st.delivered + st.cancelled
          = st.total) := by
  refine ⟨_, statsOverview_pass s u hrole, rfl, rfl, rfl, rfl, rfl, rfl, rfl, ?_⟩
  intro hs
  exact counts_sum _ hs

theorem storeArray_reachable : Reachable storeArray :=
  Reachable.next sampleEnv (some sampleAdmin)
    (.updateStatus "d-1" ⟨.array ["delivered"], .absent⟩) storeCreated_reachable

/-- C14, the code at the failing input. An admin sends
`{ status: ['delivered'] }` for the `d-1` of `storeCreated`: the array passes
the check of line 198, the answer is 200 and line 222 stores the array. In the
store reached, `GET /stats/overview` reports `total` 1 and 0 for each of the
six statuses, so the six counts add up to 0 and not to `total`. -/
theorem c14_counts_do_not_add_up :
    Reachable storeCreated ∧
    validateStatus ⟨.array ["delivered"], .absent⟩ = [] ∧
    updateStatus storeCreated sampleEnv (some sampleAdmin) "d-1" ⟨.array ["delivered"], .absent⟩
      = (.json 200 (.message "Delivery status updated successfully"
          { sampleDelivery with status := .array ["delivered"], updatedAt := 1000 }),
         storeArray) ∧
    Reachable storeArray ∧
    (overview storeArray.values).total = 1 ∧
    (overview storeArray.values).pending = 0 ∧
    (overview storeArray.values).confirmed = 0 ∧
    (overview storeArray.values).pickedUp = 0 ∧
    (overview storeArray.values).inTransit = 0 ∧
    (overview storeArray.values).delivered = 0 ∧
    (overview storeArray.values).cancelled = 0 := by
  refine ⟨storeCreated_reachable, by decide, ?_, storeArray_reachable, by decide, by decide,
    by decide, by decide, by decide, by decide, by decide⟩
  rw [updateStatus_pass storeCreated sampleEnv sampleAdmin "d-1" ⟨.array ["delivered"], .absent⟩
    sampleDelivery (by decide) (by decide) rfl (by decide)]
  rfl

/-! ## C15: rejected requests -/

theorem createDelivery_store_or_code (s : Store) (env : Env) (user : Option User)
    (b : CreateBody) :
    (createDelivery s env user b).2 = s ∨ (createDelivery s env user b).1.code = some 201 ∨
      (createDelivery s env user b).1.code = some 500 := by
  cases user with
  | none => left; rw [createDelivery_noUser]
  | some u =>
    by_cases hrole : u.role = some "customer"
    · by_cases hv : validateCreate env b = []
      · cases hr : env.route with
        | none => left; simp [createDelivery, requireCustomer, requireRole, hrole, hv, hr]
        | some dm =>
          right
          cases hpers : env.persistOk <;>
            simp [createDelivery, requireCustomer, requireRole, hrole, hv, hr, hpers,
              notifyCaught_eq, Response.code]
      · left; simp [createDelivery, requireCustomer, requireRole, List.map_cons, List.map_nil, hrole, hv]
    · left; rw [createDelivery_badRole s env u b hrole]

theorem updateStatus_store_or_code (s : Store) (env : Env) (user : Option User) (id : String)
    (b : StatusBody) :
    (updateStatus s env user id b).2 = s ∨ (updateStatus s env user id b).1.code = some 200 ∨
      (updateStatus s env user id b).1 = .thrown := by
  cases user with
  | none => left; rw [updateStatus_noUser]
  | some u =>
    by_cases hrole : u.role ∈ [some "driver", some "admin"]
    · by_cases hv : validateStatus b = []
      · cases hg : s.get id with
        | none => left; rw [updateStatus_missing s env u id b hrole hv hg]
        | some d =>
          by_cases hd : u.role = some "driver" ∧ d.driverId ≠ some u.userId
          · left; rw [updateStatus_notAssigned s env u id b d hrole hv hg hd]
          · right
            rw [updateStatus_pass s env u id b d hrole hv hg hd]
            cases env.persistOk <;> simp [Response.code]
      · left; rw [updateStatus_invalid s env u id b hrole hv]
    · left; rw [updateStatus_badRole s env u id b hrole]

theorem assignDriver_store_or_code (s : Store) (env : Env) (user : Option User) (id : String)
    (b : AssignBody) :
    (assignDriver s env user id b).2 = s ∨ (assignDriver s env user id b).1.code = some 200 ∨
      (assignDriver s env user id b).1 = .thrown := by
  cases user with
  | none => left; rw [assignDriver_noUser]
  | some u =>
    by_cases hrole : u.role = some "admin"
    · by_cases hv : b.driverId = ""
      · left; rw [assignDriver_invalid s env u id b hrole hv]
      · cases hg : s.get id with
        | none => left; rw [assignDriver_missing s env u id b hrole hv hg]
        | some d =>
          right
          rw [assignDriver_pass s env u id b d hrole hv hg]
          cases env.persistOk <;> simp [Response.code]
    · left; rw [assignDriver_badRole s env u id b hrole]

theorem cancelDelivery_store_or_code (s : Store) (env : Env) (user : Option User)
    (id : String) :
    (cancelDelivery s env user id).2 = s ∨ (cancelDelivery s env user id).1.code = some 200 ∨
      (cancelDelivery s env user id).1 = .thrown := by
  cases user with
  | none => left; rw [cancelDelivery_noUser]
  | some u =>
    by_cases hrole : u.role = some "customer"
    · cases hg : s.get id with
      | none => left; rw [cancelDelivery_missing s env u id hrole hg]
      | some d =>
        by_cases ho : d.customerId = u.userId
        · by_cases hs : d.status ∈ [.text "pickedUp", .text "inTransit", .text "delivered"]
          · left; rw [cancelDelivery_tooLate s env u id d hrole hg ho hs]
          · right
            rw [cancelDelivery_pass s env u id d hrole hg ho hs]
            cases env.persistOk <;> simp [Response.code]
        · left; rw [cancelDelivery_notOwner s env u id d hrole hg ho]
    · left; rw [cancelDelivery_badRole s env u id hrole]

/-- C15. When `POST /`, `PATCH /:id/status`, `PATCH /:id/assign` or
`PATCH /:id/cancel` answers 400 (validation error, or the cancellation that
comes too late), 401, 403 (role gate, not the owner, not the assigned driver)
or 404 (unknown id), the store after the request is the store before it. -/
theorem c15_rejections_leave_store (s : Store) (env : Env) (user : Option User)
    (code : Nat) (body : Body) (hcode : code ∈ [400, 401, 403, 404]) :
    (∀ b, (createDelivery s env user b).1 = .json code body →
      (createDelivery s env user b).2 = s) ∧
    (∀ id b, (updateStatus s env user id b).1 = .json code body →
      (updateStatus s env user id b).2 = s) ∧
    (∀ id b, (assignDriver s env user id b).1 = .json code body →
      (assignDriver s env user id b).2 = s) ∧
    (∀ id, (cancelDelivery s env user id).1 = .json code body →
      (cancelDelivery s env user id).2 = s) := by
  have h200 : code ≠ 200 := by
    intro h; subst h; simp at hcode
  have h201 : code ≠ 201 := by
    intro h; subst h; simp at hcode
  have h500 : code ≠ 500 := by
    intro h; subst h; simp at hcode
  refine ⟨?_, ?_, ?_, ?_⟩
  · intro b h
    rcases createDelivery_store_or_code s env user b with hs | hc | hc
    · exact hs
    · rw [h] at hc; simp [Response.code] at hc; exact absurd hc h201
    · rw [h] at hc; simp [Response.code] at hc; exact absurd hc h500
  · intro id b h
    rcases updateStatus_store_or_code s env user id b with hs | hc | hc
    · exact hs
    · rw [h] at hc; simp [Response.code] at hc; exact absurd hc h200
    · rw [h] at hc; cases hc
  · intro id b h
    rcases assignDriver_store_or_code s env user id b with hs | hc | hc
    · exact hs
    · rw [h] at hc; simp [Response.code] at hc; exact absurd hc h200
    · rw [h] at hc; cases hc
  · intro id h
    rcases cancelDelivery_store_or_code s env user id with hs | hc | hc
    · exact hs
    · rw [h] at hc; simp [Response.code] at hc; exact absurd hc h200
    · rw [h] at hc; cases hc

/-- C15 at concrete inputs: another customer's cancel request on `storeCreated`
is answered 403 and leaves `storeCreated`. -/
theorem c15_rejections_leave_store_witness :
    (cancelDelivery storeCreated sampleEnv (some otherCustomer) "d-1").2 = storeCreated :=
  (c15_rejections_leave_store storeCreated sampleEnv (some otherCustomer) 403
    (.error "Access denied") (by decide)).2.2.2 "d-1" (by decide)

/-! ## C16: a failing dependency in `POST /` -/

theorem createDelivery_routeFails (s : Store) (env : Env) (user : Option User) (b : CreateBody)
    (hroute : env.route = none) : (createDelivery s env user b).2 = s := by
  rcases createDelivery_store s env user b with hs | ⟨_, dm, _, _, _, hr, _⟩
  · exact hs
  · rw [hroute] at hr; cases hr

theorem createDelivery_routeFails_answer (s : Store) (env : Env) (u : User) (b : CreateBody)
    (hr : u.role = some "customer") (hv : validateCreate env b = [])
    (hroute : env.route = none) :
    createDelivery s env (some u) b = (.json 500 (.error "Failed to create delivery"), s) := by
  simp [createDelivery, requireCustomer, requireRole, hr, hv, hroute]

theorem createDelivery_persistFails (s : Store) (env : Env) (u : User) (b : CreateBody)
    (dm : DistanceMatrix) (hr : u.role = some "customer")
    (hv : validateCreate env b = [])
    (hroute : env.route = some dm) (hpers : env.persistOk = false) :
    createDelivery s env (some u) b
      = (.json 500 (.error "Failed to create delivery"),
          s.set env.uuid (newDelivery env u b dm)) := by
  simp [createDelivery, requireCustomer, requireRole, hr, hv, hroute, hpers]

/-- C16, the code at the failing input. The customer's valid request
`sampleBody` on the empty store, the Firestore call throwing: the answer is 500
`Failed to create delivery`, and the store holds the record `d-1` afterwards,
which a later `GET /d-1` of the customer returns. When it is the distance
matrix call that throws, the store is left as it was. -/
theorem c16_create_persist_failure :
    createDelivery Store.empty persistFailsEnv (some sampleCustomer) sampleBody
      = (.json 500 (.error "Failed to create delivery"), storeCreated) ∧
    storeCreated ≠ Store.empty ∧
    getDelivery (createDelivery Store.empty persistFailsEnv (some sampleCustomer) sampleBody).2
        (some sampleCustomer) "d-1" = (.json 200 (.delivery sampleDelivery), storeCreated) ∧
    createDelivery Store.empty routeFailsEnv (some sampleCustomer) sampleBody
      = (.json 500 (.error "Failed to create delivery"), Store.empty) := by
  have h := createDelivery_persistFails Store.empty persistFailsEnv sampleCustomer sampleBody
    { distance := ⟨"10 km", 10000⟩, duration := ⟨"20 mins", 1200⟩ } rfl
    validateCreate_sample rfl rfl
  have hn : newDelivery persistFailsEnv sampleCustomer sampleBody
      { distance := ⟨"10 km", 10000⟩, duration := ⟨"20 mins", 1200⟩ } = sampleDelivery :=
    newDelivery_sample
  rw [hn] at h
  have h' : createDelivery Store.empty persistFailsEnv (some sampleCustomer) sampleBody
      = (.json 500 (.error "Failed to create delivery"), storeCreated) := h
  refine ⟨h', by decide, ?_, ?_⟩
  · rw [h']; rfl
  · exact createDelivery_routeFails_answer Store.empty routeFailsEnv sampleCustomer sampleBody
      rfl validateCreate_sample rfl

/-! ## C17: notification failures -/

/-- C17. For each of the four mutating handlers and every input, the answer
and the store left behind are the same whether `sendToTopic` returns or
throws. -/
theorem c17_notification_independent (s : Store) (env : Env) (user : Option User) :
    (∀ b, createDelivery s { env with notifyOk := true } user b
      = createDelivery s { env with notifyOk := false } user b) ∧
    (∀ id b, updateStatus s { env with notifyOk := true } user id b
      = updateStatus s { env with notifyOk := false } user id b) ∧
    (∀ id b, assignDriver s { env with notifyOk := true } user id b
      = assignDriver s { env with notifyOk := false } user id b) ∧
    (∀ id, cancelDelivery s { env with notifyOk := true } user id
      = cancelDelivery s { env with notifyOk := false } user id) := by
  refine ⟨?_, ?_, ?_, ?_⟩
  · intro b
    simp only [createDelivery, notifyCaught_eq]
    rfl
  · intro id b
    simp only [updateStatus, notifyCaught_eq]
    rfl
  · intro id b
    simp only [assignDriver, notifyCaught_eq]
    rfl
  · intro id
    simp only [cancelDelivery, notifyCaught_eq]
    rfl

/-! ## C18: price and estimated delivery date after creation -/

/-- A record stays under its id through every request that is not a `POST /`
drawing that very id. -/
theorem step_get_some (s : Store) (env : Env) (user : Option User) (op : Op) (id : String)
    (d : Delivery) (hg : s.get id = some d) (hop : op.isCreate = true → env.uuid ≠ id) :
    ∃ d', (step s env user op).2.get id = some d' := by
  cases op with
  | create b =>
    have hne : id ≠ env.uuid := fun h => hop rfl h.symm
    simp only [step]
    rcases createDelivery_store s env user b with hs | ⟨u, dm, _, _, _, _, hs⟩
    · rw [hs]; exact ⟨d, hg⟩
    · rw [hs, Store.get_set]; exact ⟨d, by simp [hne, hg]⟩
  | list q => exact ⟨d, by simpa [step, listDeliveries_store] using hg⟩
  | get j => exact ⟨d, by simpa [step, getDelivery_store] using hg⟩
  | stats => exact ⟨d, by simpa [step, statsOverview_store] using hg⟩
  | updateStatus j b =>
    simp only [step]
    rcases updateStatus_store s env user j b with hs | ⟨_, _, _, hs⟩
    · rw [hs]; exact ⟨d, hg⟩
    · rw [hs, Store.get_modify]
      by_cases hj : id = j
      · subst hj; exact ⟨applyStatus env b d, by simp [hg]⟩
      · exact ⟨d, by simp [hj, hg]⟩
  | assignDriver j b =>
    simp only [step]
    rcases assignDriver_store s env user j b with hs | ⟨_, _, _, hs⟩
    · rw [hs]; exact ⟨d, hg⟩
    · rw [hs, Store.get_modify]
      by_cases hj : id = j
      · subst hj; exact ⟨applyAssign env b d, by simp [hg]⟩
      · exact ⟨d, by simp [hj, hg]⟩
  | cancel j =>
    simp only [step]
    rcases cancelDelivery_store s env user j with hs | ⟨_, _, _, _, _, _, _, hs⟩
    · rw [hs]; exact ⟨d, hg⟩
    · rw [hs, Store.get_modify]
      by_cases hj : id = j
      · subst hj; exact ⟨applyCancel env d, by simp [hg]⟩
      · exact ⟨d, by simp [hj, hg]⟩

theorem applyStatus_price (env : Env) (b : StatusBody) (d : Delivery) :
    (applyStatus env b d).price = d.price ∧
      (applyStatus env b d).estimatedDeliveryDate = d.estimatedDeliveryDate := by
  unfold applyStatus
  cases b.location with
  | absent => exact ⟨rfl, rfl⟩
  | notObject => exact ⟨rfl, rfl⟩
  | object l => simp only; split_ifs <;> exact ⟨rfl, rfl⟩

theorem step_price (s : Store) (env : Env) (user : Option User) (op : Op) (id : String)
    (d : Delivery) (hg : s.get id = some d) (hop : op.isCreate = true → env.uuid ≠ id) :
    ∃ d', (step s env user op).2.get id = some d' ∧ d'.price = d.price ∧
      d'.estimatedDeliveryDate = d.estimatedDeliveryDate := by
  obtain ⟨d', hd'⟩ := step_get_some s env user op id d hg hop
  refine ⟨d', hd', ?_⟩
  rcases step_get_cases s env user op id d' hd' with h0 | ⟨b, d0, -, -, h0, rfl⟩ |
    ⟨b, d0, -, h0, rfl⟩ | ⟨d0, -, h0, rfl⟩ | ⟨b, u, dm, hc, hid, -⟩
  · rw [hg] at h0; cases h0; exact ⟨rfl, rfl⟩
  · rw [hg] at h0; cases h0; exact applyStatus_price env b d
  · rw [hg] at h0; cases h0; exact ⟨rfl, rfl⟩
  · rw [hg] at h0; cases h0; exact ⟨rfl, rfl⟩
  · subst hc; exact absurd hid (hop rfl)

theorem runOps_price (reqs : List Request) (s : Store) (id : String) (d : Delivery)
    (hg : s.get id = some d) (hops : ∀ r ∈ reqs, r.op.isCreate = true → r.env.uuid ≠ id) :
    ∃ d', (runOps s reqs).get id = some d' ∧ d'.price = d.price ∧
      d'.estimatedDeliveryDate = d.estimatedDeliveryDate := by
  induction reqs generalizing s d with
  | nil => exact ⟨d, hg, rfl, rfl⟩
  | cons r rest ih =>
    obtain ⟨d1, h1, hp1, he1⟩ := step_price s r.env r.user r.op id d hg (hops r (by simp))
    obtain ⟨d', h', hp', he'⟩ := ih _ d1 h1 (fun x hx => hops x (by simp [hx]))
    exact ⟨d', h', hp'.trans hp1, he'.trans he1⟩

theorem getDelivery_ok_record (s : Store) (user : Option User) (id : String) (x : Delivery)
    (h : (getDelivery s user id).1 = .json 200 (.delivery x)) : s.get id = some x := by
  unfold getDelivery at h
  cases hg : s.get id with
  | none => simp [hg] at h
  | some d =>
    cases user with
    | none => simp [hg] at h
    | some u =>
      simp only [hg] at h
      split_ifs at h
      · simp at h
      · simp at h
      · simp only [Response.json.injEq, Body.delivery.injEq, true_and] at h
        rw [h]

/-- C18. Let `POST /` answer 201 with the record `rec`. After any sequence of
later requests (status updates, driver assignments, cancellations, reads, and
creations of other deliveries), served with any clock, requester and service
answers, the record under the id of `rec` has the price and the estimated
delivery date of `rec`, and every `GET /:id` that answers 200 returns that
price and date. -/
theorem c18_price_frame (s s1 : Store) (env : Env) (user : Option User) (b : CreateBody)
    (msg : String) (rec : Delivery)
    (hc : createDelivery s env user b = (.json 201 (.message msg rec), s1))
    (reqs : List Request) (hops : ∀ r ∈ reqs, r.op.isCreate = true → r.env.uuid ≠ rec.id) :
    (∃ d', (runOps s1 reqs).get rec.id = some d' ∧ d'.price = rec.price ∧
      d'.estimatedDeliveryDate = rec.estimatedDeliveryDate) ∧
    (∀ u x, (getDelivery (runOps s1 reqs) u rec.id).1 = .json 200 (.delivery x) →
      x.price = rec.price ∧ x.estimatedDeliveryDate = rec.estimatedDeliveryDate) := by
  have hcode : (createDelivery s env user b).1.code = some 201 := by rw [hc]; rfl
  obtain ⟨u, dm, rfl, hrole, hv, hr, hpers⟩ := createDelivery_created s env user b hcode
  rw [createDelivery_ok s env u b dm hrole hv hr hpers] at hc
  simp only [Prod.mk.injEq, Response.json.injEq, Body.message.injEq, true_and] at hc
  obtain ⟨⟨-, hrec⟩, hs1⟩ := hc
  have hid : rec.id = env.uuid := by rw [← hrec]; rfl
  have hg : s1.get rec.id = some rec := by
    rw [← hs1, hid, Store.get_set, hrec]; simp
  have hrun := runOps_price reqs s1 rec.id rec hg hops
  refine ⟨hrun, ?_⟩
  intro u' x hx
  obtain ⟨d', hd', hp', he'⟩ := hrun
  have := getDelivery_ok_record _ u' rec.id x hx
  rw [hd'] at this
  cases this
  exact ⟨hp', he'⟩

/-- C18 at concrete inputs: the customer creates `d-1`, an admin assigns a
driver, the driver reports `delivered`; the price is still 22. -/
theorem c18_price_frame_witness :
    ∃ d', (runOps storeCreated
        [⟨sampleEnv, some sampleAdmin, .assignDriver "d-1" ⟨"drv-1"⟩⟩,
         ⟨sampleEnv, some sampleDriver, .updateStatus "d-1" ⟨.text "delivered", .object ⟨12, 77⟩⟩⟩]).get
          sampleDelivery.id = some d' ∧
      d'.price = sampleDelivery.price ∧
      d'.estimatedDeliveryDate = sampleDelivery.estimatedDeliveryDate :=
  (c18_price_frame Store.empty storeCreated sampleEnv (some sampleCustomer) sampleBody
    "Delivery created successfully" sampleDelivery step_create_sample _
    (by intro r hr; simp at hr; rcases hr with rfl | rfl <;> simp [Op.isCreate])).1

/-! ## C19: the estimated delivery date -/

theorem timeClip_intCast (z : Int) : timeClip (z : ℚ) = z := by
  unfold timeClip
  split_ifs <;> simp

theorem estimatedDelivery_eq (pickup : Int) (durationValue : Nat) :
    estimatedDelivery pickup durationValue = pickup + 1000 * (durationValue : Int) + 7200000 := by
  unfold estimatedDelivery addHours
  have h1 : (pickup : ℚ) + (durationValue : ℚ) / 3600 * 3600000
      = ((pickup + 1000 * (durationValue : Int) : Int) : ℚ) := by
    push_cast; ring
  rw [h1, timeClip_intCast]
  have h2 : ((pickup + 1000 * (durationValue : Int) : Int) : ℚ) + 2 * 3600000
      = ((pickup + 1000 * (durationValue : Int) + 7200000 : Int) : ℚ) := by
    push_cast; ring
  rw [h2, timeClip_intCast]

theorem validateCreate_dateOnly : validateCreate sampleEnv dateOnlyBody = [] := by
  simp [validateCreate, sampleEnv, dateOnlyBody, sampleBody]
  norm_num

theorem validateCreate_invalidDate : validateCreate sampleEnv invalidDateBody = [] := by
  simp [validateCreate, sampleEnv, invalidDateBody, sampleBody]
  norm_num

/-- C19, counterexample. Times in milliseconds, on a server at UTC+05:30, with
1200 seconds of travel. The pickup text `1970-01-02` passes the validation;
the answer is 201; the stored `pickupDate` is 86400000 (what `new Date` reads)
and the stored estimate is 75000000 (computed from the 66600000 `moment`
reads), which is before the stored pickup date and not 2 hours and 1200
seconds after it. The pickup text `2024-02-30` passes the validation too; the
answer is 201 and the stored estimate is an invalid date. -/
theorem c19_estimate_counterexample :
    (createDelivery Store.empty sampleEnv (some sampleCustomer) dateOnlyBody).1.code = some 201 ∧
    ((createDelivery Store.empty sampleEnv (some sampleCustomer) dateOnlyBody).2.get "d-1").map
        (fun d => (d.pickupDate, d.estimatedDeliveryDate))
      = some (some 86400000, some 75000000) ∧
    (75000000 : Int) < 86400000 ∧
    (75000000 : Int) ≠ 86400000 + 1000 * 1200 + 7200000 ∧
    (createDelivery Store.empty sampleEnv (some sampleCustomer) invalidDateBody).1.code
      = some 201 ∧
    ((createDelivery Store.empty sampleEnv (some sampleCustomer) invalidDateBody).2.get "d-1").map
        (fun d => (d.pickupDate, d.estimatedDeliveryDate))
      = some (some 1709251200000, none) := by
  have h1 := createDelivery_ok Store.empty sampleEnv sampleCustomer dateOnlyBody
    { distance := ⟨"10 km", 10000⟩, duration := ⟨"20 mins", 1200⟩ } rfl validateCreate_dateOnly
    rfl rfl
  have h2 := createDelivery_ok Store.empty sampleEnv sampleCustomer invalidDateBody
    { distance := ⟨"10 km", 10000⟩, duration := ⟨"20 mins", 1200⟩ } rfl
    validateCreate_invalidDate rfl rfl
  have he : estimatedDelivery 66600000 1200 = 75000000 := by
    rw [estimatedDelivery_eq]; norm_num
  refine ⟨by rw [h1]; rfl, ?_, by decide, by decide, by rw [h2]; rfl, ?_⟩
  · rw [h1]
    simp [Store.get_set, sampleEnv, newDelivery, dateOnlyBody, he]
  · rw [h2]
    simp [Store.get_set, sampleEnv, newDelivery, invalidDateBody]

/-- C19, amended. Times in milliseconds. When `POST /` answers 201 with the
record `rec`, `sec` being the seconds the distance matrix returned:
`rec.pickupDate` is what `new Date` reads from the pickup text, and for every
instant `m` that `moment` reads from it, `rec.estimatedDeliveryDate` is
`m + 1000 * sec + 7200000`, that is `m` plus `sec / 3600` hours plus 2 hours,
at least 2 hours after `m`; when `new Date` reads the same instant, the
estimate is at least 2 hours after the stored pickup date. -/
theorem c19_estimated_delivery (s : Store) (env : Env) (user : Option User) (b : CreateBody)
    (h : (createDelivery s env user b).1.code = some 201) :
    ∃ dm rec, env.route = some dm ∧
      (createDelivery s env user b).1
        = .json 201 (.message "Delivery created successfully" rec) ∧
      rec.pickupDate = env.dateParse b.pickupDate ∧
      ∀ m : Int, env.momentParse b.pickupDate = some m →
        rec.estimatedDeliveryDate = some (m + 1000 * (dm.duration.value : Int) + 7200000) ∧
        ((m + 1000 * (dm.duration.value : Int) + 7200000 : Int) : ℚ)
          = (m : ℚ) + (dm.duration.value : ℚ) / 3600 * 3600000 + 2 * 3600000 ∧
        m + 7200000 ≤ m + 1000 * (dm.duration.value : Int) + 7200000 ∧
        (env.dateParse b.pickupDate = some m →
          rec.pickupDate = some m ∧
          ∃ e, rec.estimatedDeliveryDate = some e ∧ m + 7200000 ≤ e) := by
  obtain ⟨u, dm, rfl, hrole, hv, hr, hpers⟩ := createDelivery_created s env user b h
  refine ⟨dm, newDelivery env u b dm, hr, ?_, rfl, ?_⟩
  · rw [createDelivery_ok s env u b dm hrole hv hr hpers]
  · intro m hm
    have he : (newDelivery env u b dm).estimatedDeliveryDate
        = some (m + 1000 * (dm.duration.value : Int) + 7200000) := by
      show (env.momentParse b.pickupDate).map _ = _
      rw [hm, Option.map_some', estimatedDelivery_eq]
    have hnn : (0 : Int) ≤ (dm.duration.value : Int) := Int.natCast_nonneg _
    refine ⟨he, ?_, by omega, ?_⟩
    · push_cast; ring
    · intro hd
      exact ⟨hd, _, he, by omega⟩

/-- C19, amended, at concrete inputs: the request `sampleBody`, whose pickup
text both readers take as 86400000, with 1200 seconds of travel. -/
theorem c19_estimated_delivery_witness :
    ∃ dm rec, sampleEnv.route = some dm ∧
      (createDelivery Store.empty sampleEnv (some sampleCustomer) sampleBody).1
        = .json 201 (.message "Delivery created successfully" rec) ∧
      rec.pickupDate = some 86400000 ∧
      rec.estimatedDeliveryDate = some (86400000 + 1000 * (dm.duration.value : Int) + 7200000) := by
  obtain ⟨dm, rec, h1, h2, -, h4⟩ :=
    c19_estimated_delivery Store.empty sampleEnv (some sampleCustomer) sampleBody (by
      have h := step_create_sample
      simp only [step] at h
      rw [h]; rfl)
  obtain ⟨h5, -, -, h6⟩ := h4 86400000 rfl
  exact ⟨dm, rec, h1, h2, (h6 rfl).1, h5⟩

/-! ## C20: pickup and delivery coordinates -/

theorem applyStatus_coordinates (env : Env) (b : StatusBody) (d : Delivery) :
    (applyStatus env b d).trackingData.pickupCoordinates
      = (match b.location with
         | .object l => if b.status = .text "pickedUp" then some l else d.trackingData.pickupCoordinates
         | _ => d.trackingData.pickupCoordinates) ∧
    (applyStatus env b d).trackingData.deliveryCoordinates
      = (match b.location with
         | .object l =>
           if b.status = .text "delivered" then some l else d.trackingData.deliveryCoordinates
         | _ => d.trackingData.deliveryCoordinates) := by
  unfold applyStatus
  cases b.location with
  | absent => exact ⟨rfl, rfl⟩
  | notObject => exact ⟨rfl, rfl⟩
  | object l =>
    by_cases h1 : b.status = .text "pickedUp"
    · have h2 : ¬ b.status = .text "delivered" := by rw [h1]; decide
      simp [h1]
    · by_cases h2 : b.status = .text "delivered"
      · simp [h2]
      · simp [h1, h2]

theorem updateStatus_ok_record (s : Store) (env : Env) (user : Option User) (id : String)
    (b : StatusBody) (h : (updateStatus s env user id b).1.code = some 200) :
    ∃ d, s.get id = some d ∧
      updateStatus s env user id b
        = (.json 200 (.message "Delivery status updated successfully" (applyStatus env b d)),
            s.modify id (applyStatus env b)) := by
  cases user with
  | none => rw [updateStatus_noUser] at h; simp [Response.code] at h
  | some u =>
    by_cases hrole : u.role ∈ [some "driver", some "admin"]
    · by_cases hv : validateStatus b = []
      · cases hg : s.get id with
        | none =>
          rw [updateStatus_missing s env u id b hrole hv hg] at h; simp [Response.code] at h
        | some d =>
          by_cases hd : u.role = some "driver" ∧ d.driverId ≠ some u.userId
          · rw [updateStatus_notAssigned s env u id b d hrole hv hg hd] at h
            simp [Response.code] at h
          · rw [updateStatus_pass s env u id b d hrole hv hg hd] at h ⊢
            cases hp : env.persistOk
            · simp [hp, Response.code] at h
            · exact ⟨d, rfl, by simp⟩
      · rw [updateStatus_invalid s env u id b hrole hv] at h; simp [Response.code] at h
    · rw [updateStatus_badRole s env u id b hrole] at h; simp [Response.code] at h

/-- C20. Let a status update be answered with 200, `d` being the record before
and `d'` the record after. `d'.pickupCoordinates` is the supplied location when
the new status is `pickedUp` and a location is supplied, and is
`d.pickupCoordinates` otherwise; `d'.deliveryCoordinates` is the supplied
location when the new status is `delivered` and a location is supplied, and is
`d.deliveryCoordinates` otherwise. The record of a 201 `POST /` has neither.
Whatever a driver assignment or a cancellation leaves under an id has the
coordinates that were there before. -/
theorem c20_coordinates (s : Store) (env : Env) (user : Option User) :
    (∀ id b, (updateStatus s env user id b).1.code = some 200 →
      ∃ d d', s.get id = some d ∧ (updateStatus s env user id b).2.get id = some d' ∧
        (updateStatus s env user id b).1
          = .json 200 (.message "Delivery status updated successfully" d') ∧
        (∀ l, b.location = .object l → b.status = .text "pickedUp" →
          d'.trackingData.pickupCoordinates = some l) ∧
        (¬ (b.status = .text "pickedUp" ∧ ∃ l, b.location = .object l) →
          d'.trackingData.pickupCoordinates = d.trackingData.pickupCoordinates) ∧
        (∀ l, b.location = .object l → b.status = .text "delivered" →
          d'.trackingData.deliveryCoordinates = some l) ∧
        (¬ (b.status = .text "delivered" ∧ ∃ l, b.location = .object l) →
          d'.trackingData.deliveryCoordinates = d.trackingData.deliveryCoordinates)) ∧
    (∀ b msg rec, (createDelivery s env user b).1 = .json 201 (.message msg rec) →
      rec.trackingData.pickupCoordinates = none ∧
        rec.trackingData.deliveryCoordinates = none) ∧
    (∀ id j b d', (assignDriver s env user j b).2.get id = some d' →
      ∃ d, s.get id = some d ∧
        d'.trackingData.pickupCoordinates = d.trackingData.pickupCoordinates ∧
        d'.trackingData.deliveryCoordinates = d.trackingData.deliveryCoordinates) ∧
    (∀ id j d', (cancelDelivery s env user j).2.get id = some d' →
      ∃ d, s.get id = some d ∧
        d'.trackingData.pickupCoordinates = d.trackingData.pickupCoordinates ∧
        d'.trackingData.deliveryCoordinates = d.trackingData.deliveryCoordinates) := by
  refine ⟨?_, ?_, ?_, ?_⟩
  · intro id b h
    obtain ⟨d, hg, heq⟩ := updateStatus_ok_record s env user id b h
    obtain ⟨hpick, hdel⟩ := applyStatus_coordinates env b d
    refine ⟨d, applyStatus env b d, hg, ?_, ?_, ?_, ?_, ?_, ?_⟩
    · rw [heq]; simp [Store.get_modify_self, hg]
    · rw [heq]
    · intro l hl hs
      rw [hpick, hl]; simp [hs]
    · intro hn
      rw [hpick]
      cases hl : b.location with
      | absent => rfl
      | notObject => rfl
      | object l =>
        have : ¬ b.status = .text "pickedUp" := fun hs => hn ⟨hs, l, hl⟩
        simp [this]
    · intro l hl hs
      rw [hdel, hl]; simp [hs]
    · intro hn
      rw [hdel]
      cases hl : b.location with
      | absent => rfl
      | notObject => rfl
      | object l =>
        have : ¬ b.status = .text "delivered" := fun hs => hn ⟨hs, l, hl⟩
        simp [this]
  · intro b msg rec h
    have hcode : (createDelivery s env user b).1.code = some 201 := by rw [h]; rfl
    obtain ⟨u, dm, rfl, hrole, hv, hr, hpers⟩ := createDelivery_created s env user b hcode
    rw [createDelivery_ok s env u b dm hrole hv hr hpers] at h
    simp only [Response.json.injEq, Body.message.injEq, true_and] at h
    rw [← h.2]
    exact ⟨rfl, rfl⟩
  · intro id j b d' h
    have h' : (step s env user (.assignDriver j b)).2.get id = some d' := h
    rcases step_get_cases s env user _ id d' h' with h0 | ⟨_, _, hop, _⟩ |
      ⟨b0, d0, -, h0, rfl⟩ | ⟨_, hop, _⟩ | ⟨_, _, _, hop, _⟩
    · exact ⟨d', h0, rfl, rfl⟩
    · cases hop
    · exact ⟨d0, h0, rfl, rfl⟩
    · cases hop
    · cases hop
  · intro id j d' h
    have h' : (step s env user (.cancel j)).2.get id = some d' := h
    rcases step_get_cases s env user _ id d' h' with h0 | ⟨_, _, hop, _⟩ |
      ⟨_, _, hop, _⟩ | ⟨d0, -, h0, rfl⟩ | ⟨_, _, _, hop, _⟩
    · exact ⟨d', h0, rfl, rfl⟩
    · cases hop
    · cases hop
    · exact ⟨d0, h0, rfl, rfl⟩
    · cases hop

/-- C20 at concrete inputs: an admin reports the `d-1` of `storeCreated` as
`pickedUp` at a location. -/
theorem c20_coordinates_witness :
    ∃ d d', storeCreated.get "d-1" = some d ∧
      (updateStatus storeCreated sampleEnv (some sampleAdmin) "d-1"
        ⟨.text "pickedUp", .object ⟨12, 77⟩⟩).2.get "d-1" = some d' ∧
      d'.trackingData.pickupCoordinates = some ⟨12, 77⟩ ∧
      d'.trackingData.deliveryCoordinates = d.trackingData.deliveryCoordinates := by
  obtain ⟨d, d', h1, h2, -, h4, -, -, h7⟩ :=
    (c20_coordinates storeCreated sampleEnv (some sampleAdmin)).1 "d-1"
      ⟨.text "pickedUp", .object ⟨12, 77⟩⟩ (by decide)
  exact ⟨d, d', h1, h2, h4 ⟨12, 77⟩ rfl rfl, h7 (fun h => absurd h.1 (by decide))⟩

/-! ## C21: `driverId` -/

theorem map_modifyEntry_of_frame {β : Type} (g : String × Delivery → β)
    (l : List (String × Delivery)) (id : String) (f : Delivery → Delivery)
    (hf : ∀ k d, g (k, f d) = g (k, d)) :
    (modifyEntry l id f).map g = l.map g := by
  induction l with
  | nil => rfl
  | cons e rest ih =>
    obtain ⟨k, d⟩ := e
    by_cases hk : k = id
    · simp [modifyEntry, hk, hf]
    · simp [modifyEntry, hk, ih]

theorem applyStatus_driverId (env : Env) (b : StatusBody) (d : Delivery) :
    (applyStatus env b d).driverId = d.driverId := by
  unfold applyStatus
  cases b.location with
  | absent => rfl
  | notObject => rfl
  | object l => simp only; split_ifs <;> rfl

/-- The record of a 201 `POST /` has no `driverId`, and a status update or a
cancellation, whatever its answer, leaves the `driverId` of every entry of the
store as it was. -/
theorem driverId_frame (s : Store) (env : Env) (user : Option User) :
    (∀ b msg rec, (createDelivery s env user b).1 = .json 201 (.message msg rec) →
      rec.driverId = none) ∧
    (∀ id b, (updateStatus s env user id b).2.entries.map (fun e => (e.1, e.2.driverId))
      = s.entries.map (fun e => (e.1, e.2.driverId))) ∧
    (∀ id, (cancelDelivery s env user id).2.entries.map (fun e => (e.1, e.2.driverId))
      = s.entries.map (fun e => (e.1, e.2.driverId))) := by
  refine ⟨?_, ?_, ?_⟩
  · intro b msg rec h
    have hcode : (createDelivery s env user b).1.code = some 201 := by rw [h]; rfl
    obtain ⟨u, dm, rfl, hrole, hv, hr, hpers⟩ := createDelivery_created s env user b hcode
    rw [createDelivery_ok s env u b dm hrole hv hr hpers] at h
    simp only [Response.json.injEq, Body.message.injEq, true_and] at h
    rw [← h.2]
    rfl
  · intro id b
    rcases updateStatus_store s env user id b with hs | ⟨_, _, _, hs⟩
    · rw [hs]
    · rw [hs]
      exact map_modifyEntry_of_frame _ _ _ _
        (fun k d => by simp only [applyStatus_driverId])
  · intro id
    rcases cancelDelivery_store s env user id with hs | ⟨_, _, _, _, _, _, _, hs⟩
    · rw [hs]
    · rw [hs]
      exact map_modifyEntry_of_frame _ _ _ _ (fun k d => rfl)

/-- C21, the code at the failing input. The delivery `d-1` of `storeCreated`
was created by `POST /` and has no driver. An admin sends
`PATCH /d-1/assign { driverId: 'drv-1' }` and the Firestore call of line 295
throws: the handler ends in an exception, not in the 200 answer, and the store
it leaves holds `d-1` with `driverId` `drv-1` and status `confirmed`, which a
later `GET /d-1` of the customer returns. -/
theorem c21_driver_without_successful_assignment :
    Reachable storeCreated ∧
    (storeCreated.get "d-1").map (·.driverId) = some none ∧
    assignDriver storeCreated persistFailsEnv (some sampleAdmin) "d-1" ⟨"drv-1"⟩
      = (.thrown, storeAssigned) ∧
    (assignDriver storeCreated persistFailsEnv (some sampleAdmin) "d-1" ⟨"drv-1"⟩).1.code
      ≠ some 200 ∧
    (storeAssigned.get "d-1").map (·.driverId) = some (some "drv-1") ∧
    (getDelivery storeAssigned (some sampleCustomer) "d-1").1
      = .json 200 (.delivery { sampleDelivery with
          driverId := some "drv-1", status := .text "confirmed", updatedAt := 1000 }) := by
  refine ⟨storeCreated_reachable, by decide, ?_, ?_, by decide, by rfl⟩
  · rw [assignDriver_pass storeCreated persistFailsEnv sampleAdmin "d-1" ⟨"drv-1"⟩
      sampleDelivery rfl (by decide) rfl]
    rfl
  · rw [assignDriver_pass storeCreated persistFailsEnv sampleAdmin "d-1" ⟨"drv-1"⟩
      sampleDelivery rfl (by decide) rfl]
    decide

/-! ## C22: the domain of `status` -/

/-- The record of a 201 `POST /` is `pending`. A status update whose `status`
value does not pass the check of line 198 leaves the store as it was; for a
driver or an admin its answer is 400 with the validation errors, for anyone
else it is the 401 or 403 of the role gate. -/
theorem status_domain_parts :
    (∀ s env user b msg rec, (createDelivery s env user b).1 = .json 201 (.message msg rec) →
      rec.status = .text "pending" ∧
        (createDelivery s env user b).2.statusOf env.uuid = some (.text "pending")) ∧
    (∀ s env user id b, statusIsIn b.status = false →
      (updateStatus s env user id b).2 = s ∧
      (updateStatus s env user id b).1.code ∈ [some 400, some 401, some 403] ∧
      (∀ u, user = some u → u.role = some "driver" ∨ u.role = some "admin" →
        (updateStatus s env user id b).1 = .json 400 (.errors (validateStatus b)) ∧
        validateStatus b ≠ [])) := by
  refine ⟨?_, ?_⟩
  · intro s env user b msg rec h
    have hcode : (createDelivery s env user b).1.code = some 201 := by rw [h]; rfl
    obtain ⟨u, dm, rfl, hrole, hv, hr, hpers⟩ := createDelivery_created s env user b hcode
    rw [createDelivery_ok s env u b dm hrole hv hr hpers] at h ⊢
    simp only [Response.json.injEq, Body.message.injEq, true_and] at h
    refine ⟨by rw [← h.2]; rfl, ?_⟩
    simp [Store.statusOf, Store.get_set, newDelivery]
  · intro s env user id b hb
    have hv : validateStatus b ≠ [] := by
      intro h
      have := ((validateStatus_nil_iff b).mp h).1
      rw [hb] at this
      cases this
    cases user with
    | none =>
      rw [updateStatus_noUser]
      refine ⟨rfl, by simp [Response.code], ?_⟩
      intro u hu; cases hu
    | some u =>
      by_cases hrole : u.role ∈ [some "driver", some "admin"]
      · rw [updateStatus_invalid s env u id b hrole hv]
        exact ⟨rfl, by simp [Response.code], fun _ _ _ => ⟨rfl, hv⟩⟩
      · rw [updateStatus_badRole s env u id b hrole]
        refine ⟨rfl, by simp [Response.code], ?_⟩
        intro u' hu' hr
        cases hu'
        exact absurd (by simpa using hr) hrole

/-- C22, the code at the failing input. An admin sends
`{ status: ['delivered'] }` for the `d-1` of `storeCreated`. The value is none
of the five settable strings, yet it passes the check of line 198, the answer
is 200 and not a validation error, and in the store reached the status of
`d-1` is the array, which is none of the six status strings. -/
theorem c22_status_outside_domain :
    StatusValue.array ["delivered"] ∉
      [StatusValue.text "confirmed", .text "pickedUp", .text "inTransit", .text "delivered",
        .text "cancelled"] ∧
    validateStatus ⟨.array ["delivered"], .absent⟩ = [] ∧
    (updateStatus storeCreated sampleEnv (some sampleAdmin) "d-1"
      ⟨.array ["delivered"], .absent⟩).1.code = some 200 ∧
    (updateStatus storeCreated sampleEnv (some sampleAdmin) "d-1"
      ⟨.array ["delivered"], .absent⟩).2 = storeArray ∧
    Reachable storeArray ∧
    storeArray.statusOf "d-1" = some (.array ["delivered"]) ∧
    StatusValue.array ["delivered"] ∉
      [StatusValue.text "pending", .text "confirmed", .text "pickedUp", .text "inTransit",
        .text "delivered", .text "cancelled"] :=
  ⟨by decide, by decide, by decide, by rfl, storeArray_reachable, by decide, by decide⟩

/-! ## C23: what `POST /forgot-password` reveals -/

/-- For two emails that pass `isEmail`, one registered and one not, the
handler gives two different answers: the unregistered one gets the message
`If the email exists, a reset link has been sent` alone, the registered one
gets another message with a reset token, or a 500. -/
theorem forgotPassword_distinguishes (us : UserStore) (env : AuthEnv) (e1 e2 : String)
    (a : Account) (h1 : env.isEmail e1 = true) (h2 : env.isEmail e2 = true)
    (hreg : us.get (env.normalizeEmail e1) = some a)
    (hnot : us.get (env.normalizeEmail e2) = none) :
    forgotPassword us env e2
        = ⟨200, .message "If the email exists, a reset link has been sent"⟩ ∧
    (forgotPassword us env e1 = ⟨500, .error "Failed to process request"⟩ ∨
      ∃ tok, forgotPassword us env e1
        = ⟨200, .messageToken "Password reset link sent to email" tok⟩) ∧
    forgotPassword us env e1 ≠ forgotPassword us env e2 := by
  have hb : forgotPassword us env e2
      = ⟨200, .message "If the email exists, a reset link has been sent"⟩ := by
    simp [forgotPassword, h2, hnot]
  cases hs : env.sign a.id a.email with
  | none =>
    have ha : forgotPassword us env e1 = ⟨500, .error "Failed to process request"⟩ := by
      simp [forgotPassword, h1, hreg, hs]
    refine ⟨hb, Or.inl ha, ?_⟩
    rw [ha, hb]; simp
  | some tok =>
    have ha : forgotPassword us env e1
        = ⟨200, .messageToken "Password reset link sent to email" tok⟩ := by
      simp [forgotPassword, h1, hreg, hs]
    refine ⟨hb, Or.inr ⟨tok, ha⟩, ?_⟩
    rw [ha, hb]; simp

/-- C23, the code at the failing input. With `ann@example.org` registered and
`bob@example.org` not, both passing `isEmail`: the first request is answered
200 with `Password reset link sent to email` and a reset token, the second 200
with `If the email exists, a reset link has been sent` and no token; the two
answers differ in message and in shape. -/
theorem c23_forgot_password_reveals :
    sampleUsers.get "ann@example.org" ≠ none ∧
    sampleUsers.get "bob@example.org" = none ∧
    forgotPassword sampleUsers sampleAuthEnv "ann@example.org"
      = ⟨200, .messageToken "Password reset link sent to email" "jwt.u-1.ann@example.org"⟩ ∧
    forgotPassword sampleUsers sampleAuthEnv "bob@example.org"
      = ⟨200, .message "If the email exists, a reset link has been sent"⟩ ∧
    forgotPassword sampleUsers sampleAuthEnv "ann@example.org"
      ≠ forgotPassword sampleUsers sampleAuthEnv "bob@example.org" := by
  have h := forgotPassword_distinguishes sampleUsers sampleAuthEnv "ann@example.org"
    "bob@example.org" _ (by decide) (by decide) (by rfl) (by decide)
  exact ⟨by decide, by decide, by decide, h.1, h.2.2⟩

end DeliveryCo
